import Mathlib

/-!
rtabmap: rigid transforms of points, clouds and laser scans; geodetic conversion

A shallow embedding of `corelib/src/util3d_transforms.cpp`,
`corelib/src/GeodeticCoords.cpp` and the ground-truth comparison of
`tools/KittiDataset/main.cpp`.

Conventions of the embedding:

* `float` / `double` values are elements of a commutative ring or field `α`
  (the real numbers for the statements of the specification, `ℚ` or `ℤ` for
  evaluation).  Rounding, `static_cast<float>`, NaN and infinities are outside
  the model.
* `rtabmap::Transform` is not part of the embedded sources; it is modelled as
  the 3×4 matrix it stores, `transform (i, j)` becoming `transform i j`.
* `cv::Mat` scans are a type tag (depth and channel count) together with the
  list of records of one row.
* PCL library calls are replaced by their documented effect.
* A `std::map<int, Transform>` is the list of its entries in key order; helpers
  of the tool whose source is not embedded (`getNodeInfo`, the SVD alignment,
  the pose distance and angle) are parameters.
-/

set_option autoImplicit false

namespace rtabmap

/-! ## Transform -/

/-- Modelled from the spec: `rtabmap::Transform` (class not under `src/`), a 3×4
matrix made of a 3×3 rotation block and a 3×1 translation column.  The source
expression `transform (i, j)` is `transform i j`. -/
abbrev Transform (α : Type) := Matrix (Fin 3) (Fin 4) α

namespace Transform

variable {α : Type}

/-- Modelled from the spec: `Transform::getIdentity()` (class not under `src/`),
the identity value: unit rotation block, zero translation. -/
def getIdentity [Zero α] [One α] : Transform α :=
  ![![1, 0, 0, 0], ![0, 1, 0, 0], ![0, 0, 1, 0]]

/-- Modelled from the spec: the null sentinel of `Transform` (class not under
`src/`), the in-band matrix state produced by the default constructor: all
twelve entries are zero. -/
def null [Zero α] : Transform α :=
  ![![0, 0, 0, 0], ![0, 0, 0, 0], ![0, 0, 0, 0]]

/-- Modelled from the spec: `Transform::isNull()` (class not under `src/`): the
transform is the null sentinel. -/
def isNull [Zero α] [DecidableEq α] (t : Transform α) : Bool :=
  decide (∀ i j, t i j = (null : Transform α) i j)

/-- Modelled from the spec: `Transform::isIdentity()` (class not under `src/`):
the transform is the identity value. -/
def isIdentity [Zero α] [One α] [DecidableEq α] (t : Transform α) : Bool :=
  decide (∀ i j, t i j = (getIdentity : Transform α) i j)

/-- The 3×3 rotation block of a transform. -/
def rotation (t : Transform α) : Matrix (Fin 3) (Fin 3) α :=
  fun i j => t i j.castSucc

/-- The translation column of a transform. -/
def translation (t : Transform α) : Fin 3 → α :=
  fun i => t i 3

/-- Modelled from the spec: `Transform::toEigen4f()` (class not under `src/`):
the homogeneous 4×4 matrix, the stored 3×4 block above the row `0 0 0 1`. -/
def toEigen4f [Zero α] [One α] (t : Transform α) : Matrix (Fin 4) (Fin 4) α :=
  ![![t 0 0, t 0 1, t 0 2, t 0 3],
    ![t 1 0, t 1 1, t 1 2, t 1 3],
    ![t 2 0, t 2 1, t 2 2, t 2 3],
    ![0, 0, 0, 1]]

/-- Modelled from the spec: `Transform::toEigen3f()` (class not under `src/`):
the same homogeneous matrix, seen as an affine map. -/
def toEigen3f [Zero α] [One α] (t : Transform α) : Matrix (Fin 4) (Fin 4) α :=
  t.toEigen4f

/-- Modelled from the spec: `Transform::inverse()` (class not under `src/`), the
rigid inverse: rotation block `Rᵀ`, translation `-Rᵀ t`. -/
def inverse [CommRing α] (t : Transform α) : Transform α :=
  ![![t 0 0, t 1 0, t 2 0, -(t 0 0 * t 0 3 + t 1 0 * t 1 3 + t 2 0 * t 2 3)],
    ![t 0 1, t 1 1, t 2 1, -(t 0 1 * t 0 3 + t 1 1 * t 1 3 + t 2 1 * t 2 3)],
    ![t 0 2, t 1 2, t 2 2, -(t 0 2 * t 0 3 + t 1 2 * t 1 3 + t 2 2 * t 2 3)]]

/-- A rigid transform: the rotation block is orthonormal with determinant `+1`. -/
def IsRigid [CommRing α] (t : Transform α) : Prop :=
  t.rotation.transpose * t.rotation = 1 ∧ t.rotation.det = 1

end Transform

/-! ## Point types -/

/-- `cv::Point3f`. -/
structure Point3f (α : Type) where
  x : α
  y : α
  z : α
deriving DecidableEq, Repr

/-- `pcl::PointXYZ`. -/
structure PointXYZ (α : Type) where
  x : α
  y : α
  z : α
deriving DecidableEq, Repr

/-- `pcl::PointXYZRGB`: position and the four colour bytes. -/
structure PointXYZRGB (α : Type) where
  x : α
  y : α
  z : α
  r : Nat
  g : Nat
  b : Nat
  a : Nat
deriving DecidableEq, Repr

/-- `pcl::PointNormal`: position, normal and curvature. -/
structure PointNormal (α : Type) where
  x : α
  y : α
  z : α
  normal_x : α
  normal_y : α
  normal_z : α
  curvature : α
deriving DecidableEq, Repr

/-- `pcl::PointXYZRGBNormal`: position, colour bytes, normal and curvature. -/
structure PointXYZRGBNormal (α : Type) where
  x : α
  y : α
  z : α
  r : Nat
  g : Nat
  b : Nat
  a : Nat
  normal_x : α
  normal_y : α
  normal_z : α
  curvature : α
deriving DecidableEq, Repr

/-- The default constructor of `pcl::PointNormal`: every field zero. -/
def PointNormal.ctor {α : Type} [Zero α] : PointNormal α :=
  { x := 0, y := 0, z := 0, normal_x := 0, normal_y := 0, normal_z := 0, curvature := 0 }

/-- The default constructor of `pcl::PointXYZRGBNormal`: position, normal and
curvature zero, colour black (`r = g = b = 0`) and opaque. -/
def PointXYZRGBNormal.ctor {α : Type} [Zero α] : PointXYZRGBNormal α :=
  { x := 0, y := 0, z := 0, r := 0, g := 0, b := 0, a := 255,
    normal_x := 0, normal_y := 0, normal_z := 0, curvature := 0 }

/-! ## PCL point transform -/

section pcl

variable {α : Type} [CommRing α]

/-- `pcl::transformPoint` on a `pcl::PointXYZ`: `ret = point`, then the position
is replaced by the affine image `m * (x, y, z, 1)`. -/
def pcl_transformPoint_XYZ (pt : PointXYZ α) (m : Matrix (Fin 4) (Fin 4) α) : PointXYZ α :=
  { pt with
    x := m 0 0 * pt.x + m 0 1 * pt.y + m 0 2 * pt.z + m 0 3
    y := m 1 0 * pt.x + m 1 1 * pt.y + m 1 2 * pt.z + m 1 3
    z := m 2 0 * pt.x + m 2 1 * pt.y + m 2 2 * pt.z + m 2 3 }

/-- `pcl::transformPoint` on a `pcl::PointXYZRGB`: `ret = point`, then the
position is replaced by the affine image; the colour bytes stay those of `point`. -/
def pcl_transformPoint_XYZRGB (pt : PointXYZRGB α) (m : Matrix (Fin 4) (Fin 4) α) :
    PointXYZRGB α :=
  { pt with
    x := m 0 0 * pt.x + m 0 1 * pt.y + m 0 2 * pt.z + m 0 3
    y := m 1 0 * pt.x + m 1 1 * pt.y + m 1 2 * pt.z + m 1 3
    z := m 2 0 * pt.x + m 2 1 * pt.y + m 2 2 * pt.z + m 2 3 }

end pcl

/-! ## util3d::transformPoint -/

namespace util3d

section transformPoint

variable {α : Type} [CommRing α]

/-- `cv::Point3f transformPoint(const cv::Point3f &, const Transform &)`. -/
def transformPoint (point : Point3f α) (transform : Transform α) : Point3f α :=
  let ret := point
  let ret := { ret with x := transform 0 0 * point.x + transform 0 1 * point.y
                              + transform 0 2 * point.z + transform 0 3 }
  let ret := { ret with y := transform 1 0 * point.x + transform 1 1 * point.y
                              + transform 1 2 * point.z + transform 1 3 }
  let ret := { ret with z := transform 2 0 * point.x + transform 2 1 * point.y
                              + transform 2 2 * point.z + transform 2 3 }
  ret

/-- `pcl::PointXYZ transformPoint(const pcl::PointXYZ &, const Transform &)`. -/
def transformPoint_XYZ (pt : PointXYZ α) (transform : Transform α) : PointXYZ α :=
  pcl_transformPoint_XYZ pt transform.toEigen3f

/-- `pcl::PointXYZRGB transformPoint(const pcl::PointXYZRGB &, const Transform &)`. -/
def transformPoint_XYZRGB (pt : PointXYZRGB α) (transform : Transform α) : PointXYZRGB α :=
  pcl_transformPoint_XYZRGB pt transform.toEigen3f

/-- `pcl::PointNormal transformPoint(const pcl::PointNormal &, const Transform &)`:
`ret` is default-constructed, then its position and normal are assigned. -/
def transformPoint_Normal (point : PointNormal α) (transform : Transform α) : PointNormal α :=
  let ret : PointNormal α := PointNormal.ctor
  let pt : Fin 3 → α := ![point.x, point.y, point.z]
  let ret := { ret with x := transform 0 0 * pt 0 + transform 0 1 * pt 1
                              + transform 0 2 * pt 2 + transform 0 3 }
  let ret := { ret with y := transform 1 0 * pt 0 + transform 1 1 * pt 1
                              + transform 1 2 * pt 2 + transform 1 3 }
  let ret := { ret with z := transform 2 0 * pt 0 + transform 2 1 * pt 1
                              + transform 2 2 * pt 2 + transform 2 3 }
  -- Rotate normals
  let nt : Fin 3 → α := ![point.normal_x, point.normal_y, point.normal_z]
  let ret := { ret with normal_x := transform 0 0 * nt 0 + transform 0 1 * nt 1
                                     + transform 0 2 * nt 2 }
  let ret := { ret with normal_y := transform 1 0 * nt 0 + transform 1 1 * nt 1
                                     + transform 1 2 * nt 2 }
  let ret := { ret with normal_z := transform 2 0 * nt 0 + transform 2 1 * nt 1
                                     + transform 2 2 * nt 2 }
  ret

/-- `pcl::PointXYZRGBNormal transformPoint(const pcl::PointXYZRGBNormal &, const Transform &)`:
`ret` is default-constructed, then its position and normal are assigned. -/
def transformPoint_XYZRGBNormal (point : PointXYZRGBNormal α) (transform : Transform α) :
    PointXYZRGBNormal α :=
  let ret : PointXYZRGBNormal α := PointXYZRGBNormal.ctor
  let pt : Fin 3 → α := ![point.x, point.y, point.z]
  let ret := { ret with x := transform 0 0 * pt 0 + transform 0 1 * pt 1
                              + transform 0 2 * pt 2 + transform 0 3 }
  let ret := { ret with y := transform 1 0 * pt 0 + transform 1 1 * pt 1
                              + transform 1 2 * pt 2 + transform 1 3 }
  let ret := { ret with z := transform 2 0 * pt 0 + transform 2 1 * pt 1
                              + transform 2 2 * pt 2 + transform 2 3 }
  -- Rotate normals
  let nt : Fin 3 → α := ![point.normal_x, point.normal_y, point.normal_z]
  let ret := { ret with normal_x := transform 0 0 * nt 0 + transform 0 1 * nt 1
                                     + transform 0 2 * nt 2 }
  let ret := { ret with normal_y := transform 1 0 * nt 0 + transform 1 1 * nt 1
                                     + transform 1 2 * nt 2 }
  let ret := { ret with normal_z := transform 2 0 * nt 0 + transform 2 1 * nt 1
                                     + transform 2 2 * nt 2 }
  ret

end transformPoint

end util3d

/-! ## Specification-side definitions -/

section specification

variable {α : Type} [CommRing α]

/-- The specification's `apply` on a point: the 3×4 matrix multiplied by the
homogeneous coordinate `(x, y, z, 1)`. -/
def applyHomogeneous (t : Transform α) (x y z : α) : Fin 3 → α :=
  Matrix.mulVec t ![x, y, z, 1]

/-- The specification's `apply` on a direction vector: the rotation block only. -/
def applyRotation (t : Transform α) (nx ny nz : α) : Fin 3 → α :=
  Matrix.mulVec t.rotation ![nx, ny, nz]

end specification

/-! ## Laser scans (`cv::Mat`) -/

/-- The element depth of a `cv::Mat`. -/
inductive Depth where
  | CV_8U | CV_8S | CV_16U | CV_16S | CV_32S | CV_32F | CV_64F
deriving DecidableEq, Repr

/-- The type code of a `cv::Mat`: element depth and number of channels. -/
structure MatType where
  depth : Depth
  channels : Nat
deriving DecidableEq, Repr

/-- `CV_32FC(n)`: `n` channels of 32-bit floats. -/
def CV_32FC (n : Nat) : MatType := ⟨Depth.CV_32F, n⟩

/-- `CV_32FC2`. -/
def CV_32FC2 : MatType := CV_32FC 2

/-- `CV_32FC3`. -/
def CV_32FC3 : MatType := CV_32FC 3

/-- `CV_8UC1`, the type code (zero) of a default-constructed `cv::Mat`. -/
def CV_8UC1 : MatType := ⟨Depth.CV_8U, 1⟩

/-- A one-row `cv::Mat`, as a laser scan is stored: the type code and the
records (one per column), each record the list of its channel values. -/
structure Mat (α : Type) where
  type : MatType
  data : List (List α)
deriving DecidableEq, Repr

namespace Mat

variable {α : Type}

/-- `cv::Mat::cols`. -/
def cols (m : Mat α) : Nat := m.data.length

/-- `cv::Mat::empty()`: the matrix has no element. -/
def empty (m : Mat α) : Bool := m.data.length == 0

/-- `cv::Mat::clone()`: a deep copy. -/
def clone (m : Mat α) : Mat α := { type := m.type, data := m.data }

/-- Reading `m.at<cv::VecNf>(i)[k]`.  A read outside the buffer, undefined in
C++, gives `0` here. -/
def get [Zero α] (m : Mat α) (i k : Nat) : α := (m.data.getD i []).getD k 0

/-- Writing `m.at<cv::VecNf>(i)[k] = v`.  A write outside the buffer, undefined
in C++, changes nothing here. -/
def put (m : Mat α) (i k : Nat) (v : α) : Mat α :=
  { m with data := m.data.set i ((m.data.getD i []).set k v) }

/-- Every record has exactly as many values as the type code has channels. -/
def WellFormed (m : Mat α) : Prop := ∀ r ∈ m.data, r.length = m.type.channels

end Mat

/-- The exception thrown by a failed `UASSERT`. -/
inductive UException where
  | assertion
deriving DecidableEq, Repr

namespace util3d

section transformLaserScan

variable {α : Type} [CommRing α] [DecidableEq α]

/-- The body of the `for` loop of `transformLaserScan`, for column `i`. -/
def transformLaserScan_body (laserScan : Mat α) (transform : Transform α)
    (output : Mat α) (i : Nat) : Mat α :=
  if laserScan.type = CV_32FC2 then
    let pt : PointXYZ α := ⟨laserScan.get i 0, laserScan.get i 1, 0⟩
    let pt := transformPoint_XYZ pt transform
    let output := output.put i 0 pt.x
    let output := output.put i 1 pt.y
    output
  else if laserScan.type = CV_32FC3 then
    let pt : PointXYZ α := ⟨laserScan.get i 0, laserScan.get i 1, laserScan.get i 2⟩
    let pt := transformPoint_XYZ pt transform
    let output := output.put i 0 pt.x
    let output := output.put i 1 pt.y
    let output := output.put i 2 pt.z
    output
  else if laserScan.type = CV_32FC 4 then
    let pt : PointXYZ α := ⟨laserScan.get i 0, laserScan.get i 1, laserScan.get i 2⟩
    let pt := transformPoint_XYZ pt transform
    let output := output.put i 0 pt.x
    let output := output.put i 1 pt.y
    let output := output.put i 2 pt.z
    output
  else
    let pt : PointNormal α := PointNormal.ctor
    let pt := { pt with x := laserScan.get i 0 }
    let pt := { pt with y := laserScan.get i 1 }
    let pt := { pt with z := laserScan.get i 2 }
    let pt := { pt with normal_x := laserScan.get i 3 }
    let pt := { pt with normal_y := laserScan.get i 4 }
    let pt := { pt with normal_z := laserScan.get i 5 }
    let pt := transformPoint_Normal pt transform
    let output := output.put i 0 pt.x
    let output := output.put i 1 pt.y
    let output := output.put i 2 pt.z
    let output := output.put i 3 pt.normal_x
    let output := output.put i 4 pt.normal_y
    let output := output.put i 5 pt.normal_z
    output

/-- `cv::Mat transformLaserScan(const cv::Mat & laserScan, const Transform & transform)`.
The `UASSERT` either throws or lets the function continue. -/
def transformLaserScan (laserScan : Mat α) (transform : Transform α) :
    Except UException (Mat α) :=
  if ¬ (laserScan.empty = true ∨ laserScan.type = CV_32FC2 ∨ laserScan.type = CV_32FC3
        ∨ laserScan.type = CV_32FC 4 ∨ laserScan.type = CV_32FC 6) then
    Except.error UException.assertion
  else
    let output := laserScan.clone
    if (!transform.isNull && !transform.isIdentity) = true then
      Except.ok ((List.range laserScan.cols).foldl
        (fun output i => transformLaserScan_body laserScan transform output i) output)
    else
      Except.ok output

end transformLaserScan

end util3d

/-! ## Point clouds -/

section pclCloud

variable {α : Type} [CommRing α]

/-- The body of `pcl::transformPointCloudWithNormals` on a `pcl::PointNormal`:
the point is copied, its position replaced by the affine image and its normal
by the image under the linear block. -/
def pcl_transformPointWithNormal_Normal (pt : PointNormal α) (m : Matrix (Fin 4) (Fin 4) α) :
    PointNormal α :=
  { pt with
    x := m 0 0 * pt.x + m 0 1 * pt.y + m 0 2 * pt.z + m 0 3
    y := m 1 0 * pt.x + m 1 1 * pt.y + m 1 2 * pt.z + m 1 3
    z := m 2 0 * pt.x + m 2 1 * pt.y + m 2 2 * pt.z + m 2 3
    normal_x := m 0 0 * pt.normal_x + m 0 1 * pt.normal_y + m 0 2 * pt.normal_z
    normal_y := m 1 0 * pt.normal_x + m 1 1 * pt.normal_y + m 1 2 * pt.normal_z
    normal_z := m 2 0 * pt.normal_x + m 2 1 * pt.normal_y + m 2 2 * pt.normal_z }

/-- The body of `pcl::transformPointCloudWithNormals` on a
`pcl::PointXYZRGBNormal`. -/
def pcl_transformPointWithNormal_XYZRGBNormal (pt : PointXYZRGBNormal α)
    (m : Matrix (Fin 4) (Fin 4) α) : PointXYZRGBNormal α :=
  { pt with
    x := m 0 0 * pt.x + m 0 1 * pt.y + m 0 2 * pt.z + m 0 3
    y := m 1 0 * pt.x + m 1 1 * pt.y + m 1 2 * pt.z + m 1 3
    z := m 2 0 * pt.x + m 2 1 * pt.y + m 2 2 * pt.z + m 2 3
    normal_x := m 0 0 * pt.normal_x + m 0 1 * pt.normal_y + m 0 2 * pt.normal_z
    normal_y := m 1 0 * pt.normal_x + m 1 1 * pt.normal_y + m 1 2 * pt.normal_z
    normal_z := m 2 0 * pt.normal_x + m 2 1 * pt.normal_y + m 2 2 * pt.normal_z }

end pclCloud

/-- A `pcl::PointCloud<P>`, as the ordered list of its points. -/
abbrev PointCloud (P : Type) := List P

/-- The points `cloud[indices[0]], cloud[indices[1]], ...` of a
`pcl::PointCloud`; `none` when an index is outside the cloud (undefined in C++). -/
def selectIndices {P : Type} (cloud : PointCloud P) : List Int → Option (PointCloud P)
  | [] => some []
  | i :: rest =>
    match (if 0 ≤ i then cloud.get? i.toNat else none), selectIndices cloud rest with
    | some p, some ps => some (p :: ps)
    | _, _ => none

/-- `pcl::transformPointCloud(cloud_in, cloud_out, transform)` and
`pcl::transformPointCloudWithNormals(cloud_in, cloud_out, transform)`: the
output has one point per input point, in order, each the image of the per-point
transform `f`. -/
def pcl_transformPointCloud {P M : Type} (f : P → M → P) (cloud_in : PointCloud P)
    (transform : M) : PointCloud P :=
  cloud_in.map (fun pt => f pt transform)

/-- `pcl::transformPointCloud(cloud_in, indices, cloud_out, transform)` and its
`WithNormals` variant: the output has one point per index, in the order of the
indices. -/
def pcl_transformPointCloud_indices {P M : Type} (f : P → M → P) (cloud_in : PointCloud P)
    (indices : List Int) (transform : M) : Option (PointCloud P) :=
  (selectIndices cloud_in indices).map (fun pts => pts.map (fun pt => f pt transform))

namespace util3d

section transformPointCloud

variable {α : Type} [CommRing α]

/-- `transformPointCloud(const pcl::PointCloud<pcl::PointXYZ>::Ptr &, const Transform &)`. -/
def transformPointCloud_XYZ (cloud : PointCloud (PointXYZ α)) (transform : Transform α) :
    PointCloud (PointXYZ α) :=
  pcl_transformPointCloud pcl_transformPoint_XYZ cloud transform.toEigen4f

/-- `transformPointCloud(const pcl::PointCloud<pcl::PointXYZRGB>::Ptr &, const Transform &)`. -/
def transformPointCloud_XYZRGB (cloud : PointCloud (PointXYZRGB α)) (transform : Transform α) :
    PointCloud (PointXYZRGB α) :=
  pcl_transformPointCloud pcl_transformPoint_XYZRGB cloud transform.toEigen4f

/-- `transformPointCloud(const pcl::PointCloud<pcl::PointNormal>::Ptr &, const Transform &)`. -/
def transformPointCloud_Normal (cloud : PointCloud (PointNormal α)) (transform : Transform α) :
    PointCloud (PointNormal α) :=
  pcl_transformPointCloud pcl_transformPointWithNormal_Normal cloud transform.toEigen4f

/-- `transformPointCloud(const pcl::PointCloud<pcl::PointXYZRGBNormal>::Ptr &, const Transform &)`. -/
def transformPointCloud_XYZRGBNormal (cloud : PointCloud (PointXYZRGBNormal α))
    (transform : Transform α) : PointCloud (PointXYZRGBNormal α) :=
  pcl_transformPointCloud pcl_transformPointWithNormal_XYZRGBNormal cloud transform.toEigen4f

/-- `transformPointCloud(cloud, indices, transform)` for `pcl::PointXYZ`. -/
def transformPointCloud_indices_XYZ (cloud : PointCloud (PointXYZ α)) (indices : List Int)
    (transform : Transform α) : Option (PointCloud (PointXYZ α)) :=
  pcl_transformPointCloud_indices pcl_transformPoint_XYZ cloud indices transform.toEigen4f

/-- `transformPointCloud(cloud, indices, transform)` for `pcl::PointXYZRGB`. -/
def transformPointCloud_indices_XYZRGB (cloud : PointCloud (PointXYZRGB α))
    (indices : List Int) (transform : Transform α) : Option (PointCloud (PointXYZRGB α)) :=
  pcl_transformPointCloud_indices pcl_transformPoint_XYZRGB cloud indices transform.toEigen4f

/-- `transformPointCloud(cloud, indices, transform)` for `pcl::PointNormal`. -/
def transformPointCloud_indices_Normal (cloud : PointCloud (PointNormal α))
    (indices : List Int) (transform : Transform α) : Option (PointCloud (PointNormal α)) :=
  pcl_transformPointCloud_indices pcl_transformPointWithNormal_Normal cloud indices
    transform.toEigen4f

/-- `transformPointCloud(cloud, indices, transform)` for `pcl::PointXYZRGBNormal`. -/
def transformPointCloud_indices_XYZRGBNormal (cloud : PointCloud (PointXYZRGBNormal α))
    (indices : List Int) (transform : Transform α) :
    Option (PointCloud (PointXYZRGBNormal α)) :=
  pcl_transformPointCloud_indices pcl_transformPointWithNormal_XYZRGBNormal cloud indices
    transform.toEigen4f

end transformPointCloud

end util3d

/-! ## GeodeticCoords -/

/-- The functions of `<cmath>` used by `GeodeticCoords.cpp`. -/
structure CMath (α : Type) where
  cos : α → α
  sin : α → α
  acos : α → α
  sqrt : α → α

/-- `cv::Point3d`. -/
structure Point3d (α : Type) where
  x : α
  y : α
  z : α
deriving DecidableEq, Repr

/-- `rtabmap::GeodeticCoords`: latitude and longitude in degrees, altitude in
metres. -/
structure GeodeticCoords (α : Type) where
  latitude : α
  longitude : α
  altitude : α
deriving DecidableEq, Repr

section geodetic

variable {α : Type} [Field α]

/-- `#define M_PI 3.14159265358979323846`. -/
def M_PI : α := 3.14159265358979323846

/-- `inline double DEG2RAD(const double x)`. -/
def DEG2RAD (x : α) : α := x * M_PI / 180.0

/-- `inline double square(const double & value)`. -/
def square (value : α) : α := value * value

namespace GeodeticCoords

/-- `cv::Point3d GeodeticCoords::toGeocentric_WGS84() const`. -/
def toGeocentric_WGS84 (cm : CMath α) (self : GeodeticCoords α) : Point3d α :=
  let a : α := 6378137
  let b : α := 6356752.3142
  let ae : α := cm.acos (b / a)
  let cos2_ae_earth : α := square (cm.cos ae)
  let sin2_ae_earth : α := square (cm.sin ae)
  let lon : α := DEG2RAD self.longitude
  let lat : α := DEG2RAD self.latitude
  -- The radius of curvature in the prime vertical:
  let N : α := a / cm.sqrt (1.0 - sin2_ae_earth * square (cm.sin lat))
  { x := (N + self.altitude) * cm.cos lat * cm.cos lon
    y := (N + self.altitude) * cm.cos lat * cm.sin lon
    z := (cos2_ae_earth * N + self.altitude) * cm.sin lat }

/-- `cv::Point3d GeodeticCoords::toENU_WGS84(const GeodeticCoords &origin) const`. -/
def toENU_WGS84 (cm : CMath α) (self origin : GeodeticCoords α) : Point3d α :=
  let P_geocentric := toGeocentric_WGS84 cm self
  let P_geocentric_ref := toGeocentric_WGS84 cm origin
  let clat := cm.cos (DEG2RAD origin.latitude)
  let slat := cm.sin (DEG2RAD origin.latitude)
  let clon := cm.cos (DEG2RAD origin.longitude)
  let slon := cm.sin (DEG2RAD origin.longitude)
  let P_geocentric : Point3d α :=
    { x := P_geocentric.x - P_geocentric_ref.x
      y := P_geocentric.y - P_geocentric_ref.y
      z := P_geocentric.z - P_geocentric_ref.z }
  { x := -slon * P_geocentric.x + clon * P_geocentric.y
    y := -clon * slat * P_geocentric.x - slon * slat * P_geocentric.y + clat * P_geocentric.z
    z := clon * clat * P_geocentric.x + slon * clat * P_geocentric.y + slat * P_geocentric.z }

end GeodeticCoords

end geodetic

/-! ## Absolute orientation (`util3d::transformFromXYZCorrespondencesSVD`) -/

section absoluteOrientation

variable {α : Type}

/-- The coordinates of a `pcl::PointXYZ` as a vector. -/
def PointXYZ.toVec (p : PointXYZ α) : Fin 3 → α := ![p.x, p.y, p.z]

variable [LinearOrderedField α]

/-- Modelled from the spec: the centroid of a point set (part of
`util3d::transformFromXYZCorrespondencesSVD`, whose source is not under `src/`). -/
def centroid (cloud : PointCloud (PointXYZ α)) : Fin 3 → α :=
  fun k => (cloud.map (fun p => p.toVec k)).sum / (cloud.length : α)

/-- Modelled from the spec: the 3×3 cross-covariance of the two sets centred on
their centroids, the sum over the index-wise pairs of
`(src i - centroid src) (tgt i - centroid tgt)ᵀ`. -/
def crossCovariance (src tgt : PointCloud (PointXYZ α)) : Matrix (Fin 3) (Fin 3) α :=
  fun j k => ((List.zip src tgt).map (fun p =>
    (p.1.toVec j - centroid src j) * (p.2.toVec k - centroid tgt k))).sum

/-- Modelled from the spec: the result `T` of
`util3d::transformFromXYZCorrespondencesSVD(src, tgt)` (source not under `src/`),
the rigid transform minimising `Σ ‖tgt i - T (src i)‖²`: the cross-covariance
of the centred sets is factored by a singular value decomposition `U * Σ * Vᵀ`
(`U`, `V` orthogonal, `Σ` diagonal with non-negative entries in non-increasing
order), the rotation block of `T` is `V * diag(1, 1, det (V * Uᵀ)) * Uᵀ`, and
the translation is `centroid tgt - rotation * centroid src`.  A singular value
decomposition is not unique, hence a relation. -/
def IsSVDAlignment (src tgt : PointCloud (PointXYZ α)) (T : Transform α) : Prop :=
  ∃ (U V : Matrix (Fin 3) (Fin 3) α) (σ : Fin 3 → α),
    U.transpose * U = 1 ∧ V.transpose * V = 1
      ∧ (∀ i, 0 ≤ σ i) ∧ σ 2 ≤ σ 1 ∧ σ 1 ≤ σ 0
      ∧ crossCovariance src tgt = U * Matrix.diagonal σ * V.transpose
      ∧ T.rotation = V * Matrix.diagonal ![1, 1, (V * U.transpose).det] * U.transpose
      ∧ T.translation = centroid tgt - Matrix.mulVec T.rotation (centroid src)

end absoluteOrientation

/-! ## Ground-truth comparison of `tools/KittiDataset/main.cpp` -/

namespace Transform

variable {α : Type}

/-- Modelled from the spec: `Transform::x()` (class not under `src/`), the first
translation component. -/
def x (t : Transform α) : α := t 0 3

/-- Modelled from the spec: `Transform::y()` (class not under `src/`), the second
translation component. -/
def y (t : Transform α) : α := t 1 3

/-- Modelled from the spec: `Transform::z()` (class not under `src/`), the third
translation component. -/
def z (t : Transform α) : α := t 2 3

/-- Modelled from the spec: `Transform::operator*` (class not under `src/`),
`compose(other)`, this ∘ other: the product of the two homogeneous matrices. -/
def mul [CommRing α] (t o : Transform α) : Transform α :=
  ![![t 0 0 * o 0 0 + t 0 1 * o 1 0 + t 0 2 * o 2 0,
      t 0 0 * o 0 1 + t 0 1 * o 1 1 + t 0 2 * o 2 1,
      t 0 0 * o 0 2 + t 0 1 * o 1 2 + t 0 2 * o 2 2,
      t 0 0 * o 0 3 + t 0 1 * o 1 3 + t 0 2 * o 2 3 + t 0 3],
    ![t 1 0 * o 0 0 + t 1 1 * o 1 0 + t 1 2 * o 2 0,
      t 1 0 * o 0 1 + t 1 1 * o 1 1 + t 1 2 * o 2 1,
      t 1 0 * o 0 2 + t 1 1 * o 1 2 + t 1 2 * o 2 2,
      t 1 0 * o 0 3 + t 1 1 * o 1 3 + t 1 2 * o 2 3 + t 1 3],
    ![t 2 0 * o 0 0 + t 2 1 * o 1 0 + t 2 2 * o 2 0,
      t 2 0 * o 0 1 + t 2 1 * o 1 1 + t 2 2 * o 2 1,
      t 2 0 * o 0 2 + t 2 1 * o 1 2 + t 2 2 * o 2 2,
      t 2 0 * o 0 3 + t 2 1 * o 1 3 + t 2 2 * o 2 3 + t 2 3]]

end Transform

namespace KittiDataset

/-- A `std::map<int, Transform>`, as the list of its entries in iteration order
(ascending keys). -/
abbrev PoseMap (α : Type) := List (Int × Transform α)

/-- `uValues(map)`: the values of a map, in key order. -/
def uValues {α : Type} (m : PoseMap α) : List (Transform α) := m.map Prod.snd

/-- The ids of a pose map are node ids of rtabmap, which are positive; `0` is
the invalid id, which the tool uses for "no first id" (`int idFirst = 0`). -/
def PoseMap.ValidIds {α : Type} (m : PoseMap α) : Prop := ∀ it ∈ m, 0 < it.1

/-- `std::map::insert`: nothing happens when the key is present.  The keys
arrive in ascending order, so a new entry goes to the end. -/
def PoseMap.insert {α : Type} (m : PoseMap α) (id : Int) (t : Transform α) : PoseMap α :=
  if (m.lookup id).isSome then m else m ++ [(id, t)]

/-- The variables written by the first loop over `poses`.  `cloud1` and `cloud2`
hold the `oi` points assigned so far, which is what `resize(oi)` keeps. -/
structure Correspondences (α : Type) where
  groundTruth : PoseMap α
  cloud1 : PointCloud (PointXYZ α)
  cloud2 : PointCloud (PointXYZ α)
  oi : Nat
  idFirst : Int

section alignment

variable {α : Type} [CommRing α] [DecidableEq α]

/-- The body of the first loop over `poses`; `getNodeInfo id` is the ground-truth
pose `gtPose` that `rtabmap.getMemory()->getNodeInfo` returns for node `id`. -/
def collect_body (getNodeInfo : Int → Transform α) (st : Correspondences α)
    (iter : Int × Transform α) : Correspondences α :=
  let gtPose := getNodeInfo iter.1
  if (!gtPose.isNull) = true then
    { groundTruth := st.groundTruth.insert iter.1 gtPose
      idFirst := if st.oi = 0 then iter.1 else st.idFirst
      cloud1 := st.cloud1 ++ [⟨gtPose.x, gtPose.y, gtPose.z⟩]
      cloud2 := st.cloud2 ++ [⟨iter.2.x, iter.2.y, iter.2.z⟩]
      oi := st.oi + 1 }
  else
    st

/-- The first loop over `poses`, from `oi = 0`, `idFirst = 0`. -/
def collect (getNodeInfo : Int → Transform α) (poses : PoseMap α) : Correspondences α :=
  poses.foldl (collect_body getNodeInfo)
    { groundTruth := [], cloud1 := [], cloud2 := [], oi := 0, idFirst := 0 }

/-- The computation of the alignment transform `t`.
`transformFromXYZCorrespondencesSVD` is a parameter; `none` stands for the
`std::out_of_range` of a failed `at`. -/
def alignment
    (transformFromXYZCorrespondencesSVD :
      PointCloud (PointXYZ α) → PointCloud (PointXYZ α) → Transform α)
    (poses : PoseMap α) (st : Correspondences α) : Option (Transform α) :=
  let t : Transform α := Transform.getIdentity
  if st.oi > 5 then
    some (transformFromXYZCorrespondencesSVD st.cloud2 st.cloud1)
  else if st.idFirst ≠ 0 then
    match st.groundTruth.lookup st.idFirst, poses.lookup st.idFirst with
    | some gt, some pose => some (gt.mul pose.inverse)
    | _, _ => none
  else
    some t

/-- The loop that applies `t` to the poses:
`if(!t.isIdentity()) for(iter ...) iter->second = t * iter->second;`. -/
def realign (t : Transform α) (poses : PoseMap α) : PoseMap α :=
  if (!t.isIdentity) = true then
    poses.map (fun iter => (iter.1, t.mul iter.2))
  else
    poses

end alignment

/-- The variables written by the error loop.  The two error vectors hold the
`oi` values assigned so far, which is what `resize(oi)` keeps. -/
structure ErrorStats (α : Type) where
  translationalErrors : List α
  rotationalErrors : List α
  sumTranslationalErrors : α
  sumRotationalErrors : α
  sumSqrdTranslationalErrors : α
  sumSqrdRotationalErrors : α
  translational_min : α
  translational_max : α
  rotational_min : α
  rotational_max : α
  oi : Nat

/-- The values written to `rtabmap_rmse*.txt` that do not need `std::sqrt` or
`uVariance`. -/
structure Report (α : Type) where
  translational_mean : α
  translational_median : α
  translational_min : α
  translational_max : α
  rotational_mean : α
  rotational_median : α
  rotational_min : α
  rotational_max : α

section statistics

variable {α : Type} [LinearOrderedField α]

/-- The body of the error loop.  `getAngle pose gt` is the angle `a` between the
x axes of the two rotations (`pcl::getAngle3D`), `getDistance pose gt` is
`iter->second.getDistance(jter->second)`. -/
def errors_body (getAngle getDistance : Transform α → Transform α → α)
    (groundTruth : PoseMap α) (st : ErrorStats α) (iter : Int × Transform α) :
    ErrorStats α :=
  let radToDegree : α := 180.0 / M_PI
  match groundTruth.lookup iter.1 with
  | some jter =>
    let a := getAngle iter.2 jter
    let rotErr := a * radToDegree
    let transErr := getDistance iter.2 jter
    let st := { st with
      rotationalErrors := st.rotationalErrors ++ [rotErr]
      translationalErrors := st.translationalErrors ++ [transErr]
      sumTranslationalErrors := st.sumTranslationalErrors + transErr
      sumSqrdTranslationalErrors := st.sumSqrdTranslationalErrors + transErr * transErr
      sumRotationalErrors := st.sumRotationalErrors + rotErr
      sumSqrdRotationalErrors := st.sumSqrdRotationalErrors + rotErr * rotErr }
    let st :=
      if st.oi = 0 then
        { st with
          translational_min := transErr, translational_max := transErr
          rotational_min := rotErr, rotational_max := rotErr }
      else
        let st :=
          if transErr < st.translational_min then
            { st with translational_min := transErr }
          else if transErr > st.translational_max then
            { st with translational_max := transErr }
          else st
        let st :=
          if rotErr < st.rotational_min then
            { st with rotational_min := rotErr }
          else if rotErr > st.rotational_max then
            { st with rotational_max := rotErr }
          else st
        st
    { st with oi := st.oi + 1 }
  | none => st

/-- The error loop over the (realigned) poses, from `oi = 0` and all sums,
minima and maxima `0.0f`. -/
def errors (getAngle getDistance : Transform α → Transform α → α)
    (groundTruth : PoseMap α) (poses : PoseMap α) : ErrorStats α :=
  poses.foldl (errors_body getAngle getDistance groundTruth)
    { translationalErrors := [], rotationalErrors := []
      sumTranslationalErrors := 0, sumRotationalErrors := 0
      sumSqrdTranslationalErrors := 0, sumSqrdRotationalErrors := 0
      translational_min := 0, translational_max := 0
      rotational_min := 0, rotational_max := 0
      oi := 0 }

/-- The block `if(oi) { ... }` after the error loop: the reported values. -/
def report (st : ErrorStats α) : Option (Report α) :=
  if st.oi ≠ 0 then
    let total : α := (st.oi : α)
    some
      { translational_mean := st.sumTranslationalErrors / total
        translational_median := st.translationalErrors.getD (st.oi / 2) 0
        translational_min := st.translational_min
        translational_max := st.translational_max
        rotational_mean := st.sumRotationalErrors / total
        rotational_median := st.rotationalErrors.getD (st.oi / 2) 0
        rotational_min := st.rotational_min
        rotational_max := st.rotational_max }
  else
    none

/-- The block `if(!gtPath.empty()) { ... }` of `main`: the KITTI errors
`(t_err, r_err)`, the realigned poses, the state of the error loop run on them
and the reported values; `none` when an `at` throws.
`calcKittiSequenceErrors gt est` is the pair `(t_err, r_err)` that
`graph::calcKittiSequenceErrors` (not under `src/`, hence a parameter) writes;
it is called on `uValues(groundTruth)`
and `uValues(poses)` before the alignment transform is computed
("compute KITTI statistics before aligning the poses"). -/
def groundTruthComparison (getNodeInfo : Int → Transform α)
    (calcKittiSequenceErrors : List (Transform α) → List (Transform α) → α × α)
    (transformFromXYZCorrespondencesSVD :
      PointCloud (PointXYZ α) → PointCloud (PointXYZ α) → Transform α)
    (getAngle getDistance : Transform α → Transform α → α)
    (poses : PoseMap α) :
    Option ((α × α) × PoseMap α × ErrorStats α × Option (Report α)) :=
  let st := collect getNodeInfo poses
  -- compute KITTI statistics before aligning the poses
  let kitti := calcKittiSequenceErrors (uValues st.groundTruth) (uValues poses)
  match alignment transformFromXYZCorrespondencesSVD poses st with
  | some t =>
    let poses := realign t poses
    let stats := errors getAngle getDistance st.groundTruth poses
    some (kitti, poses, stats, report stats)
  | none => none

end statistics

end KittiDataset

namespace KittiDataset

/-- What the error loop maintains: the two error vectors hold `oi` values, and
once a value is recorded the tracked minimum and maximum are recorded values
that bound every recorded value. -/
def ErrorStats.Consistent {α : Type} [LinearOrder α] (st : ErrorStats α) : Prop :=
  st.translationalErrors.length = st.oi ∧ st.rotationalErrors.length = st.oi
    ∧ (st.oi ≠ 0 →
      (st.translational_min ∈ st.translationalErrors
        ∧ st.translational_max ∈ st.translationalErrors
        ∧ ∀ e ∈ st.translationalErrors, st.translational_min ≤ e ∧ e ≤ st.translational_max)
      ∧ (st.rotational_min ∈ st.rotationalErrors
        ∧ st.rotational_max ∈ st.rotationalErrors
        ∧ ∀ e ∈ st.rotationalErrors, st.rotational_min ≤ e ∧ e ≤ st.rotational_max))

end KittiDataset

/-! ## A sample run for the worked examples -/

namespace KittiDataset

section sample

variable {α : Type} [CommRing α]

/-- Sample ground truth: nodes `1` to `6` stand at `(±3, 0, 0)`, `(0, ±2, 0)` and
`(0, 0, ±1)` with the identity rotation; no other node has ground truth. -/
def sampleGroundTruth (id : Int) : Transform α :=
  if id = 1 then ![![1, 0, 0, 3], ![0, 1, 0, 0], ![0, 0, 1, 0]]
  else if id = 2 then ![![1, 0, 0, -3], ![0, 1, 0, 0], ![0, 0, 1, 0]]
  else if id = 3 then ![![1, 0, 0, 0], ![0, 1, 0, 2], ![0, 0, 1, 0]]
  else if id = 4 then ![![1, 0, 0, 0], ![0, 1, 0, -2], ![0, 0, 1, 0]]
  else if id = 5 then ![![1, 0, 0, 0], ![0, 1, 0, 0], ![0, 0, 1, 1]]
  else if id = 6 then ![![1, 0, 0, 0], ![0, 1, 0, 0], ![0, 0, 1, -1]]
  else Transform.null

/-- Sample rigid transform: the quarter turn about `z` followed by the
translation `(5, 6, 7)`. -/
def sampleTransform : Transform α :=
  ![![0, -1, 0, 5], ![1, 0, 0, 6], ![0, 0, 1, 7]]

/-- Sample estimate: the poses of nodes `1` to `6`, each `sampleTransform` times
its ground-truth pose. -/
def sampleEstimate : PoseMap α :=
  [(1, sampleTransform.mul (sampleGroundTruth 1)), (2, sampleTransform.mul (sampleGroundTruth 2)),
   (3, sampleTransform.mul (sampleGroundTruth 3)), (4, sampleTransform.mul (sampleGroundTruth 4)),
   (5, sampleTransform.mul (sampleGroundTruth 5)), (6, sampleTransform.mul (sampleGroundTruth 6))]

end sample

end KittiDataset

/-! ## Properties of `transformPoint` -/

section transformPointProperties

open util3d

variable {α : Type} [CommRing α]

theorem castSucc_two_fin : Fin.castSucc (2 : Fin 3) = (2 : Fin 4) := rfl

theorem applyHomogeneous_apply (t : Transform α) (x y z : α) (i : Fin 3) :
    applyHomogeneous t x y z i = t i 0 * x + t i 1 * y + t i 2 * z + t i 3 := by
  simp only [applyHomogeneous, Matrix.mulVec, Matrix.dotProduct, Fin.sum_univ_four]
  simp

theorem applyRotation_apply (t : Transform α) (x y z : α) (i : Fin 3) :
    applyRotation t x y z i = t i 0 * x + t i 1 * y + t i 2 * z := by
  simp only [applyRotation, Transform.rotation, Matrix.mulVec, Matrix.dotProduct,
    Fin.sum_univ_three]
  simp [castSucc_two_fin]

/-- C1: for every transform and every point, `transformPoint` returns the 3×4
matrix times the homogeneous coordinate, which is `R * p + t`, component `i`
being `T(i,0)*x + T(i,1)*y + T(i,2)*z + T(i,3)`; the `cv::Point3f`,
`PointNormal` and `PointXYZRGBNormal` overloads compute the same position. -/
theorem transformPoint_position (transform : Transform α) (x y z : α)
    (pn : PointNormal α) (pc : PointXYZRGBNormal α) :
    transformPoint ⟨x, y, z⟩ transform
        = ⟨applyHomogeneous transform x y z 0, applyHomogeneous transform x y z 1,
           applyHomogeneous transform x y z 2⟩
      ∧ applyHomogeneous transform x y z
          = Matrix.mulVec transform.rotation ![x, y, z] + transform.translation
      ∧ (∀ i : Fin 3, applyHomogeneous transform x y z i
          = transform i 0 * x + transform i 1 * y + transform i 2 * z + transform i 3)
      ∧ ((transformPoint_Normal pn transform).x = applyHomogeneous transform pn.x pn.y pn.z 0
          ∧ (transformPoint_Normal pn transform).y = applyHomogeneous transform pn.x pn.y pn.z 1
          ∧ (transformPoint_Normal pn transform).z = applyHomogeneous transform pn.x pn.y pn.z 2)
      ∧ ((transformPoint_XYZRGBNormal pc transform).x
            = applyHomogeneous transform pc.x pc.y pc.z 0
          ∧ (transformPoint_XYZRGBNormal pc transform).y
            = applyHomogeneous transform pc.x pc.y pc.z 1
          ∧ (transformPoint_XYZRGBNormal pc transform).z
            = applyHomogeneous transform pc.x pc.y pc.z 2) := by
  refine ⟨?_, ?_, fun i => applyHomogeneous_apply transform x y z i, ?_, ?_⟩
  · simp only [applyHomogeneous_apply, transformPoint]
  · funext i
    have hr := applyRotation_apply transform x y z i
    rw [applyRotation] at hr
    rw [applyHomogeneous_apply, Pi.add_apply, hr, Transform.translation]
  · simp [applyHomogeneous_apply, transformPoint_Normal]
  · simp [applyHomogeneous_apply, transformPoint_XYZRGBNormal]

/-- C2: for a point with a normal and two transforms with the same rotation
block (translations arbitrary), `transformPoint` gives the same output normal,
and that normal is `R * n`, no translation added; for both the `PointNormal`
and the `PointXYZRGBNormal` overload. -/
theorem transformPoint_normal_rotation_only (t t' : Transform α)
    (pn : PointNormal α) (pc : PointXYZRGBNormal α)
    (hrot : t.rotation = t'.rotation) :
    ((transformPoint_Normal pn t).normal_x = (transformPoint_Normal pn t').normal_x
        ∧ (transformPoint_Normal pn t).normal_y = (transformPoint_Normal pn t').normal_y
        ∧ (transformPoint_Normal pn t).normal_z = (transformPoint_Normal pn t').normal_z)
      ∧ ((transformPoint_XYZRGBNormal pc t).normal_x
            = (transformPoint_XYZRGBNormal pc t').normal_x
        ∧ (transformPoint_XYZRGBNormal pc t).normal_y
            = (transformPoint_XYZRGBNormal pc t').normal_y
        ∧ (transformPoint_XYZRGBNormal pc t).normal_z
            = (transformPoint_XYZRGBNormal pc t').normal_z)
      ∧ ((transformPoint_Normal pn t).normal_x
            = Matrix.mulVec t.rotation ![pn.normal_x, pn.normal_y, pn.normal_z] 0
        ∧ (transformPoint_Normal pn t).normal_y
            = Matrix.mulVec t.rotation ![pn.normal_x, pn.normal_y, pn.normal_z] 1
        ∧ (transformPoint_Normal pn t).normal_z
            = Matrix.mulVec t.rotation ![pn.normal_x, pn.normal_y, pn.normal_z] 2)
      ∧ ((transformPoint_XYZRGBNormal pc t).normal_x
            = Matrix.mulVec t.rotation ![pc.normal_x, pc.normal_y, pc.normal_z] 0
        ∧ (transformPoint_XYZRGBNormal pc t).normal_y
            = Matrix.mulVec t.rotation ![pc.normal_x, pc.normal_y, pc.normal_z] 1
        ∧ (transformPoint_XYZRGBNormal pc t).normal_z
            = Matrix.mulVec t.rotation ![pc.normal_x, pc.normal_y, pc.normal_z] 2) := by
  have hn : ∀ (s : Transform α) (p : PointNormal α),
      (transformPoint_Normal p s).normal_x
          = applyRotation s p.normal_x p.normal_y p.normal_z 0
        ∧ (transformPoint_Normal p s).normal_y
          = applyRotation s p.normal_x p.normal_y p.normal_z 1
        ∧ (transformPoint_Normal p s).normal_z
          = applyRotation s p.normal_x p.normal_y p.normal_z 2 := by
    intro s p
    simp [applyRotation_apply, transformPoint_Normal]
  have hc : ∀ (s : Transform α) (p : PointXYZRGBNormal α),
      (transformPoint_XYZRGBNormal p s).normal_x
          = applyRotation s p.normal_x p.normal_y p.normal_z 0
        ∧ (transformPoint_XYZRGBNormal p s).normal_y
          = applyRotation s p.normal_x p.normal_y p.normal_z 1
        ∧ (transformPoint_XYZRGBNormal p s).normal_z
          = applyRotation s p.normal_x p.normal_y p.normal_z 2 := by
    intro s p
    simp [applyRotation_apply, transformPoint_XYZRGBNormal]
  obtain ⟨a1, a2, a3⟩ := hn t pn
  obtain ⟨b1, b2, b3⟩ := hn t' pn
  obtain ⟨c1, c2, c3⟩ := hc t pc
  obtain ⟨d1, d2, d3⟩ := hc t' pc
  refine ⟨⟨?_, ?_, ?_⟩, ⟨?_, ?_, ?_⟩, ⟨a1, a2, a3⟩, ⟨c1, c2, c3⟩⟩
  · rw [a1, b1]; simp only [applyRotation, hrot]
  · rw [a2, b2]; simp only [applyRotation, hrot]
  · rw [a3, b3]; simp only [applyRotation, hrot]
  · rw [c1, d1]; simp only [applyRotation, hrot]
  · rw [c2, d2]; simp only [applyRotation, hrot]
  · rw [c3, d3]; simp only [applyRotation, hrot]

/-- Witness of C2 over `ℤ`: a quarter turn about `z` with two different
translations, applied to a point with normal `(1, 0, 0)`. -/
theorem transformPoint_normal_rotation_only_witness :
    (Transform.rotation (![![0, -1, 0, 5], ![1, 0, 0, 6], ![0, 0, 1, 7]] : Transform ℤ)
        = Transform.rotation (![![0, -1, 0, -2], ![1, 0, 0, 0], ![0, 0, 1, 9]] : Transform ℤ))
      ∧ (transformPoint_Normal (⟨1, 2, 3, 1, 0, 0, 0⟩ : PointNormal ℤ)
            ![![0, -1, 0, 5], ![1, 0, 0, 6], ![0, 0, 1, 7]]).normal_y
          = (transformPoint_Normal (⟨1, 2, 3, 1, 0, 0, 0⟩ : PointNormal ℤ)
            ![![0, -1, 0, -2], ![1, 0, 0, 0], ![0, 0, 1, 9]]).normal_y := by
  have hrot : Transform.rotation (![![0, -1, 0, 5], ![1, 0, 0, 6], ![0, 0, 1, 7]] : Transform ℤ)
      = Transform.rotation (![![0, -1, 0, -2], ![1, 0, 0, 0], ![0, 0, 1, 9]] : Transform ℤ) := by
    funext i j
    fin_cases i <;> fin_cases j <;> simp [Transform.rotation, castSucc_two_fin]
  exact ⟨hrot, (transformPoint_normal_rotation_only _ _ ⟨1, 2, 3, 1, 0, 0, 0⟩
    ⟨0, 0, 0, 0, 0, 0, 0, 0, 0, 0, 0⟩ hrot).1.2.1⟩

end transformPointProperties

/-! ## Colour through `transformPoint` -/

section colour

open util3d

variable {α : Type} [CommRing α]

/-- The `pcl::PointXYZRGB` overload keeps the colour bytes of its input. -/
theorem transformPoint_XYZRGB_color (pt : PointXYZRGB α) (transform : Transform α) :
    (transformPoint_XYZRGB pt transform).r = pt.r
      ∧ (transformPoint_XYZRGB pt transform).g = pt.g
      ∧ (transformPoint_XYZRGB pt transform).b = pt.b
      ∧ (transformPoint_XYZRGB pt transform).a = pt.a :=
  ⟨rfl, rfl, rfl, rfl⟩

/-- The `pcl::PointXYZRGBNormal` overload returns the colour of the
default-constructed point, whatever the colour of its input. -/
theorem transformPoint_XYZRGBNormal_color (point : PointXYZRGBNormal α)
    (transform : Transform α) :
    (transformPoint_XYZRGBNormal point transform).r = 0
      ∧ (transformPoint_XYZRGBNormal point transform).g = 0
      ∧ (transformPoint_XYZRGBNormal point transform).b = 0 :=
  ⟨rfl, rfl, rfl⟩

/-- C3 (defect of the code): the claim asks that `transformPoint` returns the
colour of its input.  The `pcl::PointXYZRGBNormal` overload fills a
default-constructed point and never assigns its colour: the orange point
`(255, 128, 64)` comes back black under the identity transform, while the
`pcl::PointXYZRGB` overload returns the same colour unchanged. -/
theorem transformPoint_XYZRGBNormal_loses_color :
    transformPoint_XYZRGBNormal
        (⟨1, 2, 3, 255, 128, 64, 255, 0, 0, 1, 0⟩ : PointXYZRGBNormal ℤ) Transform.getIdentity
        = ⟨1, 2, 3, 0, 0, 0, 255, 0, 0, 1, 0⟩
      ∧ transformPoint_XYZRGB (⟨1, 2, 3, 255, 128, 64, 255⟩ : PointXYZRGB ℤ)
          Transform.getIdentity
        = ⟨1, 2, 3, 255, 128, 64, 255⟩ := by
  decide

end colour

/-! ## Round trip through the inverse -/

section roundTrip

open util3d

variable {α : Type} [CommRing α]

theorem rotation_orthonormal_entries (t : Transform α)
    (h : t.rotation.transpose * t.rotation = 1) :
    (t 0 0 * t 0 0 + t 1 0 * t 1 0 + t 2 0 * t 2 0 = 1
      ∧ t 0 0 * t 0 1 + t 1 0 * t 1 1 + t 2 0 * t 2 1 = 0
      ∧ t 0 0 * t 0 2 + t 1 0 * t 1 2 + t 2 0 * t 2 2 = 0)
    ∧ (t 0 1 * t 0 0 + t 1 1 * t 1 0 + t 2 1 * t 2 0 = 0
      ∧ t 0 1 * t 0 1 + t 1 1 * t 1 1 + t 2 1 * t 2 1 = 1
      ∧ t 0 1 * t 0 2 + t 1 1 * t 1 2 + t 2 1 * t 2 2 = 0)
    ∧ (t 0 2 * t 0 0 + t 1 2 * t 1 0 + t 2 2 * t 2 0 = 0
      ∧ t 0 2 * t 0 1 + t 1 2 * t 1 1 + t 2 2 * t 2 1 = 0
      ∧ t 0 2 * t 0 2 + t 1 2 * t 1 2 + t 2 2 * t 2 2 = 1) := by
  have e := fun i j => congrFun (congrFun h i) j
  have e00 := e 0 0
  have e01 := e 0 1
  have e02 := e 0 2
  have e10 := e 1 0
  have e11 := e 1 1
  have e12 := e 1 2
  have e20 := e 2 0
  have e21 := e 2 1
  have e22 := e 2 2
  simp only [Matrix.mul_apply, Matrix.transpose_apply, Fin.sum_univ_three,
    Transform.rotation] at e00 e01 e02 e10 e11 e12 e20 e21 e22
  simp [castSucc_two_fin] at e00 e01 e02 e10 e11 e12 e20 e21 e22
  exact ⟨⟨e00, e01, e02⟩, ⟨e10, e11, e12⟩, ⟨e20, e21, e22⟩⟩

/-- C9: for every rigid transform `T` (rotation block orthonormal with
determinant `+1`, hence not the null sentinel) and every point `p`,
`transformPoint (transformPoint p T) T.inverse` is `p`, exactly, where
`T.inverse` is the rigid inverse `(Rᵀ, -Rᵀ t)`. -/
theorem transformPoint_inverse_roundtrip (transform : Transform α) (point : Point3f α)
    (hrigid : transform.IsRigid) :
    transformPoint (transformPoint point transform) transform.inverse = point := by
  obtain ⟨⟨e00, e01, e02⟩, ⟨e10, e11, e12⟩, ⟨e20, e21, e22⟩⟩ :=
    rotation_orthonormal_entries transform hrigid.1
  obtain ⟨x, y, z⟩ := point
  simp only [transformPoint, Transform.inverse]
  simp only [Matrix.cons_val_zero, Matrix.cons_val_one, Matrix.head_cons, Matrix.cons_val_two,
    Matrix.tail_cons, Matrix.cons_val_three]
  congr 1
  · linear_combination x * e00 + y * e01 + z * e02
  · linear_combination x * e10 + y * e11 + z * e12
  · linear_combination x * e20 + y * e21 + z * e22

theorem quarterTurn_isRigid :
    Transform.IsRigid (![![0, -1, 0, 5], ![1, 0, 0, 6], ![0, 0, 1, 7]] : Transform ℤ) := by
  constructor
  · funext i j
    fin_cases i <;> fin_cases j <;>
      simp [Matrix.mul_apply, Fin.sum_univ_three, Transform.rotation, castSucc_two_fin,
        Matrix.vecHead, Matrix.vecTail]
  · simp [Matrix.det_fin_three, Transform.rotation, castSucc_two_fin]

/-- Witness of C9 over `ℤ`: the quarter turn about `z` followed by the
translation `(5, 6, 7)`, at the point `(1, 2, 3)`. -/
theorem transformPoint_inverse_roundtrip_witness :
    Transform.IsRigid (![![0, -1, 0, 5], ![1, 0, 0, 6], ![0, 0, 1, 7]] : Transform ℤ)
      ∧ transformPoint (transformPoint (⟨1, 2, 3⟩ : Point3f ℤ)
            ![![0, -1, 0, 5], ![1, 0, 0, 6], ![0, 0, 1, 7]])
          (Transform.inverse ![![0, -1, 0, 5], ![1, 0, 0, 6], ![0, 0, 1, 7]])
        = ⟨1, 2, 3⟩ :=
  ⟨quarterTurn_isRigid, transformPoint_inverse_roundtrip _ _ quarterTurn_isRigid⟩

end roundTrip

/-! ## Geocentric coordinates on the equator -/

section geocentric

variable {α : Type} [Field α]

/-- With `sin 0 = 0`, `cos 0 = 1` and `sqrt 1 = 1`, the geocentric coordinates of
latitude `0`, longitude `0`, altitude `h` are `(6378137 + h, 0, 0)`. -/
theorem toGeocentric_WGS84_equator_of (cm : CMath α) (h : α)
    (hsin : cm.sin 0 = 0) (hcos : cm.cos 0 = 1) (hsqrt : cm.sqrt 1 = 1) :
    GeodeticCoords.toGeocentric_WGS84 cm ⟨0, 0, h⟩ = ⟨6378137 + h, 0, 0⟩ := by
  have h1 : (1.0 : α) = 1 := by norm_num
  simp [GeodeticCoords.toGeocentric_WGS84, DEG2RAD, square, hsin, hcos, hsqrt, h1]

/-- C10: over the reals, `toGeocentric_WGS84` of latitude 0, longitude 0,
altitude 0 is exactly `(6378137, 0, 0)`, and of latitude 0, longitude 0,
altitude `h` it is `(6378137 + h, 0, 0)`. -/
theorem toGeocentric_WGS84_equator (h : ℝ) :
    GeodeticCoords.toGeocentric_WGS84
        (⟨Real.cos, Real.sin, Real.arccos, Real.sqrt⟩ : CMath ℝ) ⟨0, 0, 0⟩
        = ⟨6378137, 0, 0⟩
      ∧ GeodeticCoords.toGeocentric_WGS84
          (⟨Real.cos, Real.sin, Real.arccos, Real.sqrt⟩ : CMath ℝ) ⟨0, 0, h⟩
        = ⟨6378137 + h, 0, 0⟩ := by
  constructor
  · have h0 := toGeocentric_WGS84_equator_of
      (⟨Real.cos, Real.sin, Real.arccos, Real.sqrt⟩ : CMath ℝ) 0
      Real.sin_zero Real.cos_zero Real.sqrt_one
    simpa using h0
  · exact toGeocentric_WGS84_equator_of _ h Real.sin_zero Real.cos_zero Real.sqrt_one

end geocentric

/-! ## Laser scans -/

section laserScan

open util3d

variable {α : Type}

theorem Mat.put_type (m : Mat α) (i k : Nat) (v : α) : (m.put i k v).type = m.type := rfl

theorem Mat.put_cols (m : Mat α) (i k : Nat) (v : α) : (m.put i k v).cols = m.cols := by
  simp [Mat.put, Mat.cols]

/-- Writing channel `k` leaves every other channel of every record as it was. -/
theorem Mat.put_record_of_ne (m : Mat α) (i k j k' : Nat) (v : α) (h : k ≠ k') :
    ((m.put i k v).data.getD j [])[k']? = (m.data.getD j [])[k']? := by
  unfold Mat.put
  simp only [List.getD_eq_getElem?_getD]
  by_cases hij : i = j
  · subst hij
    by_cases hi : i < m.data.length
    · simp [List.getElem?_set_self, hi, List.getElem?_set_ne h]
    · have : m.data.length ≤ i := Nat.le_of_not_lt hi
      simp [List.getElem?_eq_none, this]
  · simp [List.getElem?_set_ne hij]

theorem Mat.get_eq_record [Zero α] (m : Mat α) (i k : Nat) :
    m.get i k = ((m.data.getD i [])[k]?).getD 0 := by
  simp [Mat.get, List.getD_eq_getElem?_getD]

theorem Mat.cols_eq_zero_of_empty (m : Mat α) (h : m.empty = true) : m.cols = 0 := by
  simpa [Mat.empty, Mat.cols] using h

variable [CommRing α]

/-- One pass of the loop body over a 4-wide scan keeps the type, the number of
columns and the 4th value of every record. -/
theorem transformLaserScan_body_intensity (laserScan : Mat α) (transform : Transform α)
    (output : Mat α) (i : Nat) (h4 : laserScan.type = CV_32FC 4) :
    (transformLaserScan_body laserScan transform output i).type = output.type
      ∧ (transformLaserScan_body laserScan transform output i).cols = output.cols
      ∧ ∀ j, ((transformLaserScan_body laserScan transform output i).data.getD j [])[3]?
          = (output.data.getD j [])[3]? := by
  have n2 : ¬ (CV_32FC 4 = CV_32FC2) := by decide
  have n3 : ¬ (CV_32FC 4 = CV_32FC3) := by decide
  simp only [transformLaserScan_body, h4, n2, n3, if_false, if_true]
  refine ⟨rfl, ?_, ?_⟩
  · simp [Mat.put_cols]
  · intro j
    rw [Mat.put_record_of_ne _ _ _ _ _ _ (by decide), Mat.put_record_of_ne _ _ _ _ _ _ (by decide),
      Mat.put_record_of_ne _ _ _ _ _ _ (by decide)]

theorem transformLaserScan_loop_intensity (laserScan : Mat α) (transform : Transform α)
    (h4 : laserScan.type = CV_32FC 4) (cols : List Nat) (output : Mat α) :
    (cols.foldl (fun output i => transformLaserScan_body laserScan transform output i)
        output).type = output.type
      ∧ (cols.foldl (fun output i => transformLaserScan_body laserScan transform output i)
        output).cols = output.cols
      ∧ ∀ j, ((cols.foldl (fun output i => transformLaserScan_body laserScan transform output i)
        output).data.getD j [])[3]? = (output.data.getD j [])[3]? := by
  induction cols generalizing output with
  | nil => exact ⟨rfl, rfl, fun _ => rfl⟩
  | cons i rest ih =>
    obtain ⟨a1, a2, a3⟩ := ih (transformLaserScan_body laserScan transform output i)
    obtain ⟨b1, b2, b3⟩ := transformLaserScan_body_intensity laserScan transform output i h4
    simp only [List.foldl_cons]
    exact ⟨a1.trans b1, a2.trans b2, fun j => (a3 j).trans (b3 j)⟩

/-- C4: for every 4-wide (XYZI) scan and every transform (null, identity or
any other), `transformLaserScan` returns a scan of the same type and number of
records whose 4th field (intensity) is, record by record, that of the input:
the stored value `output[i][3]` is `laserScan[i][3]`, and so is what
`at<cv::Vec4f>(i)[3]` reads. -/
theorem transformLaserScan_intensity_preserved [DecidableEq α] (laserScan : Mat α)
    (transform : Transform α) (h4 : laserScan.type = CV_32FC 4) :
    ∃ output, transformLaserScan laserScan transform = Except.ok output
      ∧ output.type = laserScan.type ∧ output.cols = laserScan.cols
      ∧ (∀ i, (output.data.getD i [])[3]? = (laserScan.data.getD i [])[3]?)
      ∧ ∀ i, output.get i 3 = laserScan.get i 3 := by
  unfold transformLaserScan
  have hassert : laserScan.empty = true ∨ laserScan.type = CV_32FC2 ∨ laserScan.type = CV_32FC3
      ∨ laserScan.type = CV_32FC 4 ∨ laserScan.type = CV_32FC 6 := Or.inr (Or.inr (Or.inr (Or.inl h4)))
  rw [if_neg (not_not.mpr hassert)]
  by_cases ht : (!transform.isNull && !transform.isIdentity) = true
  · rw [if_pos ht]
    obtain ⟨a1, a2, a3⟩ :=
      transformLaserScan_loop_intensity laserScan transform h4 (List.range laserScan.cols)
        laserScan.clone
    refine ⟨_, rfl, a1, a2, a3, fun i => ?_⟩
    rw [Mat.get_eq_record, Mat.get_eq_record, a3 i]
    rfl
  · rw [if_neg ht]
    exact ⟨_, rfl, rfl, rfl, fun _ => rfl, fun _ => rfl⟩

/-- Witness of C4 over `ℤ`: a 4-wide scan of two records under the quarter turn
about `z` followed by the translation `(5, 6, 7)`. -/
theorem transformLaserScan_intensity_preserved_witness :
    (⟨CV_32FC 4, [[1, 2, 3, 9], [4, 5, 6, 8]]⟩ : Mat ℤ).type = CV_32FC 4
      ∧ ∃ output, transformLaserScan (⟨CV_32FC 4, [[1, 2, 3, 9], [4, 5, 6, 8]]⟩ : Mat ℤ)
            ![![0, -1, 0, 5], ![1, 0, 0, 6], ![0, 0, 1, 7]] = Except.ok output
          ∧ output.type = CV_32FC 4 ∧ output.cols = 2
          ∧ (∀ i, (output.data.getD i [])[3]?
              = (([[1, 2, 3, 9], [4, 5, 6, 8]] : List (List ℤ)).getD i [])[3]?)
          ∧ ∀ i, output.get i 3
              = (⟨CV_32FC 4, [[1, 2, 3, 9], [4, 5, 6, 8]]⟩ : Mat ℤ).get i 3 :=
  ⟨rfl, transformLaserScan_intensity_preserved
    (⟨CV_32FC 4, [[1, 2, 3, 9], [4, 5, 6, 8]]⟩ : Mat ℤ)
    ![![0, -1, 0, 5], ![1, 0, 0, 6], ![0, 0, 1, 7]] rfl⟩

/-- C5: for every scan of a supported encoding (`CV_32FC2`, `CV_32FC3`,
`CV_32FC(4)` or `CV_32FC(6)`) and the transform the identity or the null
sentinel, `transformLaserScan` returns a buffer equal to the input. -/
theorem transformLaserScan_null_or_identity [DecidableEq α] (laserScan : Mat α) (transform : Transform α)
    (hw : laserScan.type = CV_32FC2 ∨ laserScan.type = CV_32FC3
      ∨ laserScan.type = CV_32FC 4 ∨ laserScan.type = CV_32FC 6)
    (ht : transform.isNull = true ∨ transform.isIdentity = true) :
    transformLaserScan laserScan transform = Except.ok laserScan := by
  unfold transformLaserScan
  rw [if_neg (not_not.mpr (Or.inr hw))]
  have hguard : ¬ ((!transform.isNull && !transform.isIdentity) = true) := by
    rcases ht with h | h <;> simp [h]
  rw [if_neg hguard]
  rfl

/-- Witness of C5 over `ℤ`: a 3-wide scan under the null sentinel. -/
theorem transformLaserScan_null_or_identity_witness :
    ((⟨CV_32FC3, [[1, 2, 3], [4, 5, 6]]⟩ : Mat ℤ).type = CV_32FC2
        ∨ (⟨CV_32FC3, [[1, 2, 3], [4, 5, 6]]⟩ : Mat ℤ).type = CV_32FC3
        ∨ (⟨CV_32FC3, [[1, 2, 3], [4, 5, 6]]⟩ : Mat ℤ).type = CV_32FC 4
        ∨ (⟨CV_32FC3, [[1, 2, 3], [4, 5, 6]]⟩ : Mat ℤ).type = CV_32FC 6)
      ∧ (Transform.isNull (Transform.null : Transform ℤ) = true
        ∨ Transform.isIdentity (Transform.null : Transform ℤ) = true)
      ∧ transformLaserScan (⟨CV_32FC3, [[1, 2, 3], [4, 5, 6]]⟩ : Mat ℤ) Transform.null
        = Except.ok ⟨CV_32FC3, [[1, 2, 3], [4, 5, 6]]⟩ :=
  ⟨Or.inr (Or.inl rfl), Or.inl (by decide),
    transformLaserScan_null_or_identity _ _ (Or.inr (Or.inl rfl)) (Or.inl (by decide))⟩

/-- Counterexample to C7 as stated: the default-constructed `cv::Mat` (type
`CV_8UC1`, record width 1, no element) passes the assertion, whose first
disjunct is `laserScan.empty()`, and is returned with no error. -/
theorem transformLaserScan_empty_unsupported_accepted :
    (⟨CV_8UC1, []⟩ : Mat ℤ).type.channels ∉ [2, 3, 4, 6]
      ∧ transformLaserScan (⟨CV_8UC1, []⟩ : Mat ℤ)
          ![![0, -1, 0, 5], ![1, 0, 0, 6], ![0, 0, 1, 7]]
        = Except.ok ⟨CV_8UC1, []⟩ :=
  ⟨by decide, rfl⟩

/-- C7, amended: for every scan whose record width is outside `{2, 3, 4, 6}` and
every transform, a non-empty scan makes `transformLaserScan` fail with the
assertion error and produce no buffer, and an empty scan is returned as it is;
in both cases no record goes through the loop body. -/
theorem transformLaserScan_unsupported_width [DecidableEq α] (laserScan : Mat α) (transform : Transform α)
    (hw : laserScan.type.channels ∉ [2, 3, 4, 6]) :
    (laserScan.empty = false →
        transformLaserScan laserScan transform = Except.error UException.assertion)
      ∧ (laserScan.empty = true →
        transformLaserScan laserScan transform = Except.ok laserScan) := by
  have h2 : laserScan.type ≠ CV_32FC2 := by
    intro h; rw [h] at hw; exact hw (by decide)
  have h3 : laserScan.type ≠ CV_32FC3 := by
    intro h; rw [h] at hw; exact hw (by decide)
  have h4 : laserScan.type ≠ CV_32FC 4 := by
    intro h; rw [h] at hw; exact hw (by decide)
  have h6 : laserScan.type ≠ CV_32FC 6 := by
    intro h; rw [h] at hw; exact hw (by decide)
  constructor
  · intro hne
    unfold transformLaserScan
    rw [if_pos]
    simp [hne, h2, h3, h4, h6]
  · intro he
    unfold transformLaserScan
    rw [if_neg (not_not.mpr (Or.inl he))]
    have hc : laserScan.cols = 0 := Mat.cols_eq_zero_of_empty laserScan he
    by_cases ht : (!transform.isNull && !transform.isIdentity) = true
    · rw [if_pos ht, hc]; rfl
    · rw [if_neg ht]; rfl

/-- Witness of C7, amended, over `ℤ`: a one-record scan of width 5. -/
theorem transformLaserScan_unsupported_width_witness :
    (⟨CV_32FC 5, [[1, 2, 3, 9, 1]]⟩ : Mat ℤ).type.channels ∉ [2, 3, 4, 6]
      ∧ transformLaserScan (⟨CV_32FC 5, [[1, 2, 3, 9, 1]]⟩ : Mat ℤ)
          ![![0, -1, 0, 5], ![1, 0, 0, 6], ![0, 0, 1, 7]]
        = Except.error UException.assertion :=
  ⟨by decide, (transformLaserScan_unsupported_width _ _ (by decide)).1 rfl⟩

/-- C8: for every empty scan, whatever its element type, and every transform,
`transformLaserScan` raises no error and returns an empty scan (the input). -/
theorem transformLaserScan_empty [DecidableEq α] (laserScan : Mat α) (transform : Transform α)
    (he : laserScan.empty = true) :
    ∃ output, transformLaserScan laserScan transform = Except.ok output
      ∧ output.empty = true ∧ output = laserScan := by
  refine ⟨laserScan, ?_, he, rfl⟩
  unfold transformLaserScan
  rw [if_neg (not_not.mpr (Or.inl he))]
  have hc : laserScan.cols = 0 := Mat.cols_eq_zero_of_empty laserScan he
  by_cases ht : (!transform.isNull && !transform.isIdentity) = true
  · rw [if_pos ht, hc]; rfl
  · rw [if_neg ht]; rfl

/-- Witness of C8 over `ℤ`: an empty scan of three 64-bit channels under a
transform that is neither null nor the identity. -/
theorem transformLaserScan_empty_witness :
    (⟨⟨Depth.CV_64F, 3⟩, []⟩ : Mat ℤ).empty = true
      ∧ ∃ output, transformLaserScan (⟨⟨Depth.CV_64F, 3⟩, []⟩ : Mat ℤ)
            ![![0, -1, 0, 5], ![1, 0, 0, 6], ![0, 0, 1, 7]] = Except.ok output
          ∧ output.empty = true ∧ output = ⟨⟨Depth.CV_64F, 3⟩, []⟩ :=
  ⟨rfl, transformLaserScan_empty _ _ rfl⟩

end laserScan

/-! ## Point clouds -/

section pointCloud

open util3d

variable {α : Type} [CommRing α]

theorem Transform.eq_getIdentity_of_isIdentity [DecidableEq α] (transform : Transform α)
    (h : transform.isIdentity = true) : transform = Transform.getIdentity := by
  funext i j
  exact of_decide_eq_true h i j

theorem pcl_transformPoint_XYZ_identity (pt : PointXYZ α) :
    pcl_transformPoint_XYZ pt (Transform.toEigen4f Transform.getIdentity) = pt := by
  simp [pcl_transformPoint_XYZ, Transform.toEigen4f, Transform.getIdentity,
    Matrix.vecHead, Matrix.vecTail]

theorem pcl_transformPoint_XYZRGB_identity (pt : PointXYZRGB α) :
    pcl_transformPoint_XYZRGB pt (Transform.toEigen4f Transform.getIdentity) = pt := by
  simp [pcl_transformPoint_XYZRGB, Transform.toEigen4f, Transform.getIdentity,
    Matrix.vecHead, Matrix.vecTail]

theorem pcl_transformPointWithNormal_Normal_identity (pt : PointNormal α) :
    pcl_transformPointWithNormal_Normal pt (Transform.toEigen4f Transform.getIdentity) = pt := by
  simp [pcl_transformPointWithNormal_Normal, Transform.toEigen4f, Transform.getIdentity,
    Matrix.vecHead, Matrix.vecTail]

theorem pcl_transformPointWithNormal_XYZRGBNormal_identity (pt : PointXYZRGBNormal α) :
    pcl_transformPointWithNormal_XYZRGBNormal pt (Transform.toEigen4f Transform.getIdentity)
      = pt := by
  simp [pcl_transformPointWithNormal_XYZRGBNormal, Transform.toEigen4f, Transform.getIdentity,
    Matrix.vecHead, Matrix.vecTail]

theorem pcl_transformPointCloud_of_fixed {P M : Type} (f : P → M → P) (m : M)
    (hf : ∀ pt, f pt m = pt) (cloud : PointCloud P) :
    pcl_transformPointCloud f cloud m = cloud := by
  simp [pcl_transformPointCloud, hf]

theorem pcl_transformPointCloud_indices_of_fixed {P M : Type} (f : P → M → P) (m : M)
    (hf : ∀ pt, f pt m = pt) (cloud : PointCloud P) (indices : List Int) :
    pcl_transformPointCloud_indices f cloud indices m = selectIndices cloud indices := by
  simp [pcl_transformPointCloud_indices, hf]

/-- Counterexample to C6 as stated: there is no copy path in
`transformPointCloud`.  The null sentinel is handed to the PCL transform like
any other matrix, and the cloud with the single point `(1, 2, 3)` comes back as
the single point `(0, 0, 0)`, with and without an index subset. -/
theorem transformPointCloud_null_not_copy :
    Transform.isNull (Transform.null : Transform ℤ) = true
      ∧ transformPointCloud_XYZ [(⟨1, 2, 3⟩ : PointXYZ ℤ)] Transform.null = [⟨0, 0, 0⟩]
      ∧ transformPointCloud_XYZ [(⟨1, 2, 3⟩ : PointXYZ ℤ)] Transform.null ≠ [⟨1, 2, 3⟩]
      ∧ transformPointCloud_indices_XYZ [(⟨1, 2, 3⟩ : PointXYZ ℤ)] [0] Transform.null
          ≠ selectIndices [(⟨1, 2, 3⟩ : PointXYZ ℤ)] [0] := by
  decide

/-- C6, amended: for every point cloud of any of the four point shapes, with
or without an index subset, and the transform being the identity,
`transformPointCloud` returns a cloud equal to the input cloud (or to the
indexed sub-sequence of it), no coordinate value changed. -/
theorem transformPointCloud_identity [DecidableEq α] (transform : Transform α)
    (hid : transform.isIdentity = true)
    (c1 : PointCloud (PointXYZ α)) (c2 : PointCloud (PointXYZRGB α))
    (c3 : PointCloud (PointNormal α)) (c4 : PointCloud (PointXYZRGBNormal α))
    (indices : List Int) :
    (transformPointCloud_XYZ c1 transform = c1
        ∧ transformPointCloud_XYZRGB c2 transform = c2
        ∧ transformPointCloud_Normal c3 transform = c3
        ∧ transformPointCloud_XYZRGBNormal c4 transform = c4)
      ∧ (transformPointCloud_indices_XYZ c1 indices transform = selectIndices c1 indices
        ∧ transformPointCloud_indices_XYZRGB c2 indices transform = selectIndices c2 indices
        ∧ transformPointCloud_indices_Normal c3 indices transform = selectIndices c3 indices
        ∧ transformPointCloud_indices_XYZRGBNormal c4 indices transform
            = selectIndices c4 indices) := by
  rw [Transform.eq_getIdentity_of_isIdentity transform hid]
  exact ⟨⟨pcl_transformPointCloud_of_fixed _ _ pcl_transformPoint_XYZ_identity c1,
      pcl_transformPointCloud_of_fixed _ _ pcl_transformPoint_XYZRGB_identity c2,
      pcl_transformPointCloud_of_fixed _ _ pcl_transformPointWithNormal_Normal_identity c3,
      pcl_transformPointCloud_of_fixed _ _ pcl_transformPointWithNormal_XYZRGBNormal_identity c4⟩,
    ⟨pcl_transformPointCloud_indices_of_fixed _ _ pcl_transformPoint_XYZ_identity c1 indices,
      pcl_transformPointCloud_indices_of_fixed _ _ pcl_transformPoint_XYZRGB_identity c2 indices,
      pcl_transformPointCloud_indices_of_fixed _ _
        pcl_transformPointWithNormal_Normal_identity c3 indices,
      pcl_transformPointCloud_indices_of_fixed _ _
        pcl_transformPointWithNormal_XYZRGBNormal_identity c4 indices⟩⟩

/-- Witness of C6, amended, over `ℤ`: a two-point cloud under the identity,
whole and through the index subset `[1, 0]`. -/
theorem transformPointCloud_identity_witness :
    Transform.isIdentity (Transform.getIdentity : Transform ℤ) = true
      ∧ transformPointCloud_XYZ [(⟨1, 2, 3⟩ : PointXYZ ℤ), ⟨4, 5, 6⟩] Transform.getIdentity
          = [⟨1, 2, 3⟩, ⟨4, 5, 6⟩]
      ∧ transformPointCloud_indices_XYZ [(⟨1, 2, 3⟩ : PointXYZ ℤ), ⟨4, 5, 6⟩] [1, 0]
            Transform.getIdentity
          = selectIndices [(⟨1, 2, 3⟩ : PointXYZ ℤ), ⟨4, 5, 6⟩] [1, 0] :=
  ⟨by decide,
    (transformPointCloud_identity (Transform.getIdentity : Transform ℤ) (by decide)
      [⟨1, 2, 3⟩, ⟨4, 5, 6⟩] [] [] [] [1, 0]).1.1,
    (transformPointCloud_identity (Transform.getIdentity : Transform ℤ) (by decide)
      [⟨1, 2, 3⟩, ⟨4, 5, 6⟩] [] [] [] [1, 0]).2.1⟩

end pointCloud

/-! ## Local East-North-Up coordinates -/

section enu

/-- C11: for every geodetic coordinate `o` (any latitude, longitude and
altitude), `o.toENU_WGS84(o)` is `(0, 0, 0)`. -/
theorem toENU_WGS84_self (o : GeodeticCoords ℝ) :
    GeodeticCoords.toENU_WGS84 (⟨Real.cos, Real.sin, Real.arccos, Real.sqrt⟩ : CMath ℝ) o o
      = ⟨0, 0, 0⟩ := by
  simp [GeodeticCoords.toENU_WGS84]

/-- C16: the up axis is the ellipsoid normal at the origin: for every origin
`(lat, lon, alt)` and every height `h`, the coordinate `(lat, lon, alt + h)`
converted relative to that origin is `(0, 0, h)`. -/
theorem toENU_WGS84_up (lat lon alt h : ℝ) :
    GeodeticCoords.toENU_WGS84 (⟨Real.cos, Real.sin, Real.arccos, Real.sqrt⟩ : CMath ℝ)
        ⟨lat, lon, alt + h⟩ ⟨lat, lon, alt⟩
      = ⟨0, 0, h⟩ := by
  have hlat := Real.sin_sq_add_cos_sq (DEG2RAD lat)
  have hlon := Real.sin_sq_add_cos_sq (DEG2RAD lon)
  simp only [GeodeticCoords.toENU_WGS84, GeodeticCoords.toGeocentric_WGS84]
  congr 1
  · ring
  · linear_combination
      (-(h * Real.cos (DEG2RAD lat) * Real.sin (DEG2RAD lat))) * hlon
  · linear_combination (h * Real.cos (DEG2RAD lat) ^ 2) * hlon + h * hlat

/-- C17: `toENU_WGS84` preserves distances to the origin measured in the
geocentric frame: the squared norm of `c.toENU_WGS84(o)` is the squared norm of
`c.toGeocentric_WGS84() - o.toGeocentric_WGS84()`. -/
theorem toENU_WGS84_norm_sq (c o : GeodeticCoords ℝ) :
    (GeodeticCoords.toENU_WGS84 (⟨Real.cos, Real.sin, Real.arccos, Real.sqrt⟩ : CMath ℝ) c o).x ^ 2
      + (GeodeticCoords.toENU_WGS84
          (⟨Real.cos, Real.sin, Real.arccos, Real.sqrt⟩ : CMath ℝ) c o).y ^ 2
      + (GeodeticCoords.toENU_WGS84
          (⟨Real.cos, Real.sin, Real.arccos, Real.sqrt⟩ : CMath ℝ) c o).z ^ 2
      = ((GeodeticCoords.toGeocentric_WGS84
            (⟨Real.cos, Real.sin, Real.arccos, Real.sqrt⟩ : CMath ℝ) c).x
          - (GeodeticCoords.toGeocentric_WGS84
            (⟨Real.cos, Real.sin, Real.arccos, Real.sqrt⟩ : CMath ℝ) o).x) ^ 2
        + ((GeodeticCoords.toGeocentric_WGS84
            (⟨Real.cos, Real.sin, Real.arccos, Real.sqrt⟩ : CMath ℝ) c).y
          - (GeodeticCoords.toGeocentric_WGS84
            (⟨Real.cos, Real.sin, Real.arccos, Real.sqrt⟩ : CMath ℝ) o).y) ^ 2
        + ((GeodeticCoords.toGeocentric_WGS84
            (⟨Real.cos, Real.sin, Real.arccos, Real.sqrt⟩ : CMath ℝ) c).z
          - (GeodeticCoords.toGeocentric_WGS84
            (⟨Real.cos, Real.sin, Real.arccos, Real.sqrt⟩ : CMath ℝ) o).z) ^ 2 := by
  have hlat := Real.sin_sq_add_cos_sq (DEG2RAD o.latitude)
  have hlon := Real.sin_sq_add_cos_sq (DEG2RAD o.longitude)
  simp only [GeodeticCoords.toENU_WGS84]
  generalize (GeodeticCoords.toGeocentric_WGS84
      (⟨Real.cos, Real.sin, Real.arccos, Real.sqrt⟩ : CMath ℝ) c).x
    - (GeodeticCoords.toGeocentric_WGS84
      (⟨Real.cos, Real.sin, Real.arccos, Real.sqrt⟩ : CMath ℝ) o).x = dx
  generalize (GeodeticCoords.toGeocentric_WGS84
      (⟨Real.cos, Real.sin, Real.arccos, Real.sqrt⟩ : CMath ℝ) c).y
    - (GeodeticCoords.toGeocentric_WGS84
      (⟨Real.cos, Real.sin, Real.arccos, Real.sqrt⟩ : CMath ℝ) o).y = dy
  generalize (GeodeticCoords.toGeocentric_WGS84
      (⟨Real.cos, Real.sin, Real.arccos, Real.sqrt⟩ : CMath ℝ) c).z
    - (GeodeticCoords.toGeocentric_WGS84
      (⟨Real.cos, Real.sin, Real.arccos, Real.sqrt⟩ : CMath ℝ) o).z = dz
  linear_combination
    ((Real.cos (DEG2RAD o.longitude) * dx + Real.sin (DEG2RAD o.longitude) * dy) ^ 2 + dz ^ 2)
        * hlat
      + (dx ^ 2 + dy ^ 2) * hlon

end enu

/-! ## The 2-wide scan -/

section laserScanXY

open util3d

variable {α : Type}

/-- A loop that rewrites record `i` at step `i`, for `i` below `n`, has
rewritten exactly the first `n` records, each from its original value. -/
theorem foldl_range_set (F : Nat → List α → List α) (d : List (List α)) (n : Nat) :
    ((List.range n).foldl (fun acc i => acc.set i (F i (acc.getD i []))) d).length = d.length
      ∧ ∀ j, ((List.range n).foldl (fun acc i => acc.set i (F i (acc.getD i []))) d)[j]?
          = if j < n then (d[j]?).map (F j) else d[j]? := by
  induction n with
  | zero => simp
  | succ n ih =>
    rw [List.range_succ, List.foldl_append]
    simp only [List.foldl_cons, List.foldl_nil]
    generalize (List.range n).foldl (fun acc i => acc.set i (F i (acc.getD i []))) d = r at ih
    obtain ⟨hlen, hget⟩ := ih
    have hn : r[n]? = d[n]? := by
      rw [hget n]; simp
    refine ⟨by rw [List.length_set, hlen], fun j => ?_⟩
    by_cases hjn : n = j
    · subst hjn
      by_cases hlt : n < d.length
      · rw [List.getElem?_set_self (by rw [hlen]; exact hlt), List.getD_eq_getElem?_getD, hn]
        simp [List.getElem?_eq_getElem hlt]
      · have hge : d.length ≤ n := Nat.le_of_not_lt hlt
        rw [List.getElem?_eq_none (by rw [List.length_set, hlen]; exact hge)]
        simp [List.getElem?_eq_none hge]
    · rw [List.getElem?_set_ne hjn, hget j]
      by_cases hj : j < n
      · simp [hj, Nat.lt_succ_of_lt hj]
      · have : ¬ j < n + 1 := by omega
        simp [hj, this]

theorem Mat.put_put_data (m : Mat α) (i : Nat) (x y : α) :
    ((m.put i 0 x).put i 1 y).data
      = m.data.set i (((m.data.getD i []).set 0 x).set 1 y) := by
  simp only [Mat.put, List.getD_eq_getElem?_getD]
  by_cases hi : i < m.data.length
  · simp [List.getElem?_set_self, hi]
  · have hge : m.data.length ≤ i := Nat.le_of_not_lt hi
    simp [List.set_eq_of_length_le, hge]

variable [CommRing α]

/-- The loop body on a 2-wide scan: record `i` of the output gets the first two
components of the transformed point `(x, y, 0)` read from record `i` of the
input. -/
theorem transformLaserScan_body_xy (laserScan : Mat α) (transform : Transform α)
    (output : Mat α) (i : Nat) (h2 : laserScan.type = CV_32FC2) :
    transformLaserScan_body laserScan transform output i
      = { type := output.type
          data := output.data.set i (((output.data.getD i []).set 0
              (applyHomogeneous transform (laserScan.get i 0) (laserScan.get i 1) 0 0)).set 1
              (applyHomogeneous transform (laserScan.get i 0) (laserScan.get i 1) 0 1)) } := by
  have hb : transformLaserScan_body laserScan transform output i
      = (output.put i 0
            (applyHomogeneous transform (laserScan.get i 0) (laserScan.get i 1) 0 0)).put i 1
          (applyHomogeneous transform (laserScan.get i 0) (laserScan.get i 1) 0 1) := by
    simp [transformLaserScan_body, h2, transformPoint_XYZ, pcl_transformPoint_XYZ,
      Transform.toEigen3f, Transform.toEigen4f, applyHomogeneous_apply]
  rw [hb]
  have hd := Mat.put_put_data output i
    (applyHomogeneous transform (laserScan.get i 0) (laserScan.get i 1) 0 0)
    (applyHomogeneous transform (laserScan.get i 0) (laserScan.get i 1) 0 1)
  cases hm : (output.put i 0
      (applyHomogeneous transform (laserScan.get i 0) (laserScan.get i 1) 0 0)).put i 1
      (applyHomogeneous transform (laserScan.get i 0) (laserScan.get i 1) 0 1) with
  | mk ty da =>
    rw [hm] at hd
    have ht : ty = output.type := by
      have := congrArg Mat.type hm
      simpa [Mat.put] using this.symm
    simp only at hd
    rw [ht, hd]

end laserScanXY

section laserScanXYMain

open util3d

variable {α : Type} [CommRing α]

theorem transformLaserScan_loop_xy (laserScan : Mat α) (transform : Transform α)
    (h2 : laserScan.type = CV_32FC2) (cols : List Nat) (output : Mat α) :
    cols.foldl (fun output i => transformLaserScan_body laserScan transform output i) output
      = { type := output.type
          data := cols.foldl (fun acc i => acc.set i (((acc.getD i []).set 0
              (applyHomogeneous transform (laserScan.get i 0) (laserScan.get i 1) 0 0)).set 1
              (applyHomogeneous transform (laserScan.get i 0) (laserScan.get i 1) 0 1)))
            output.data } := by
  induction cols generalizing output with
  | nil => rfl
  | cons i rest ih =>
    simp only [List.foldl_cons]
    rw [ih, transformLaserScan_body_xy laserScan transform output i h2]

/-- C15: for every 2-wide (XY) scan and every transform that is neither null
nor the identity, `transformLaserScan` returns a scan of the same type with one
record per input record, in the same order, each record `(x', y')` being the
first two components of the transform applied to the point `(x, y, 0)` of the
input record. -/
theorem transformLaserScan_xy [DecidableEq α] (laserScan : Mat α) (transform : Transform α)
    (h2 : laserScan.type = CV_32FC2) (hwf : laserScan.WellFormed)
    (hnull : transform.isNull = false) (hid : transform.isIdentity = false) :
    transformLaserScan laserScan transform
      = Except.ok
          { type := CV_32FC2
            data := laserScan.data.map (fun r =>
              [applyHomogeneous transform (r.getD 0 0) (r.getD 1 0) 0 0,
               applyHomogeneous transform (r.getD 0 0) (r.getD 1 0) 0 1]) } := by
  unfold transformLaserScan
  rw [if_neg (not_not.mpr (Or.inr (Or.inl h2))), if_pos (by simp [hnull, hid])]
  rw [transformLaserScan_loop_xy laserScan transform h2]
  have hfold := foldl_range_set (fun i r => (r.set 0
      (applyHomogeneous transform (laserScan.get i 0) (laserScan.get i 1) 0 0)).set 1
      (applyHomogeneous transform (laserScan.get i 0) (laserScan.get i 1) 0 1))
    laserScan.data laserScan.cols
  obtain ⟨_, hget⟩ := hfold
  simp only [Mat.clone, h2]
  congr 2
  apply List.ext_getElem?
  intro j
  rw [hget j, List.getElem?_map]
  by_cases hj : j < laserScan.cols
  · rw [if_pos hj]
    have hj' : j < laserScan.data.length := hj
    rw [List.getElem?_eq_getElem hj']
    have hmem : laserScan.data[j] ∈ laserScan.data := List.getElem_mem hj'
    have hlen : (laserScan.data[j]).length = 2 := by
      have := hwf _ hmem
      rw [h2] at this
      exact this
    have hx : laserScan.get j 0 = (laserScan.data[j]).getD 0 0 := by
      simp [Mat.get, List.getD_eq_getElem?_getD, List.getElem?_eq_getElem hj']
    have hy : laserScan.get j 1 = (laserScan.data[j]).getD 1 0 := by
      simp [Mat.get, List.getD_eq_getElem?_getD, List.getElem?_eq_getElem hj']
    rw [hx, hy]
    generalize laserScan.data[j] = r at hlen
    match r, hlen with
    | [a, b], _ => simp
  · rw [if_neg hj]
    have hge : laserScan.data.length ≤ j := Nat.le_of_not_lt hj
    simp [List.getElem?_eq_none hge]

/-- Witness of C15 over `ℤ`: a 2-wide scan of two records under the quarter turn
about `z` followed by the translation `(5, 6, 7)`. -/
theorem transformLaserScan_xy_witness :
    (⟨CV_32FC2, [[1, 2], [4, 5]]⟩ : Mat ℤ).type = CV_32FC2
      ∧ (⟨CV_32FC2, [[1, 2], [4, 5]]⟩ : Mat ℤ).WellFormed
      ∧ Transform.isNull (![![0, -1, 0, 5], ![1, 0, 0, 6], ![0, 0, 1, 7]] : Transform ℤ) = false
      ∧ Transform.isIdentity (![![0, -1, 0, 5], ![1, 0, 0, 6], ![0, 0, 1, 7]] : Transform ℤ)
          = false
      ∧ transformLaserScan (⟨CV_32FC2, [[1, 2], [4, 5]]⟩ : Mat ℤ)
            ![![0, -1, 0, 5], ![1, 0, 0, 6], ![0, 0, 1, 7]]
          = Except.ok ⟨CV_32FC2, [[3, 7], [0, 10]]⟩ := by
  have hwf : (⟨CV_32FC2, [[1, 2], [4, 5]]⟩ : Mat ℤ).WellFormed := by
    intro r hr
    simp at hr
    rcases hr with h | h <;> subst h <;> rfl
  refine ⟨rfl, hwf, by decide, by decide, ?_⟩
  rw [transformLaserScan_xy _ _ rfl hwf (by decide) (by decide)]
  rfl

end laserScanXYMain

/-! ## Ground-truth alignment -/

section groundTruthAlignment

open KittiDataset

variable {α : Type}

theorem PoseMap.insert_lookup_of_some (m : PoseMap α) (id k : Int) (t v : Transform α)
    (h : List.lookup k m = some v) : List.lookup k (PoseMap.insert m id t) = some v := by
  unfold PoseMap.insert
  split
  · exact h
  · rw [List.lookup_append, h]; rfl

variable [CommRing α] [DecidableEq α]

theorem collect_body_of_null (getNodeInfo : Int → Transform α) (st : Correspondences α)
    (iter : Int × Transform α) (h : (!(getNodeInfo iter.1).isNull) = false) :
    collect_body getNodeInfo st iter = st := by
  simp [collect_body, h]

theorem collect_foldl_of_null (getNodeInfo : Int → Transform α) (pre : PoseMap α)
    (st : Correspondences α)
    (h : ∀ a ∈ pre, (!(getNodeInfo a.1).isNull) = false) :
    pre.foldl (collect_body getNodeInfo) st = st := by
  induction pre generalizing st with
  | nil => rfl
  | cons a rest ih =>
    simp only [List.foldl_cons]
    rw [collect_body_of_null getNodeInfo st a (h a (List.mem_cons_self _ _))]
    exact ih st (fun b hb => h b (List.mem_cons_of_mem _ hb))

/-- Once a correspondence is recorded, the rest of the first loop keeps
`idFirst` and the recorded ground-truth entries, and counts the poses with
ground truth. -/
theorem collect_foldl_of_started (getNodeInfo : Int → Transform α) (post : PoseMap α)
    (st : Correspondences α) (k : Int) (v : Transform α)
    (hoi : st.oi ≠ 0) (hk : List.lookup k st.groundTruth = some v) :
    (post.foldl (collect_body getNodeInfo) st).idFirst = st.idFirst
      ∧ List.lookup k (post.foldl (collect_body getNodeInfo) st).groundTruth = some v
      ∧ (post.foldl (collect_body getNodeInfo) st).oi
          = st.oi + (post.filter (fun it => !(getNodeInfo it.1).isNull)).length := by
  induction post generalizing st with
  | nil => simp [hk]
  | cons a rest ih =>
    simp only [List.foldl_cons]
    by_cases ha : (!(getNodeInfo a.1).isNull) = true
    · have hstep : collect_body getNodeInfo st a
          = { groundTruth := PoseMap.insert st.groundTruth a.1 (getNodeInfo a.1)
              idFirst := st.idFirst
              cloud1 := st.cloud1 ++ [⟨(getNodeInfo a.1).x, (getNodeInfo a.1).y,
                (getNodeInfo a.1).z⟩]
              cloud2 := st.cloud2 ++ [⟨a.2.x, a.2.y, a.2.z⟩]
              oi := st.oi + 1 } := by
        simp only [collect_body, if_pos ha, if_neg hoi]
      obtain ⟨h1, h2, h3⟩ := ih (collect_body getNodeInfo st a)
        (by rw [hstep]; exact Nat.succ_ne_zero _)
        (by rw [hstep]; exact PoseMap.insert_lookup_of_some _ _ _ _ _ hk)
      refine ⟨?_, h2, ?_⟩
      · rw [h1, hstep]
      · have hf : (List.filter (fun it : Int × Transform α => !(getNodeInfo it.1).isNull)
            (a :: rest))
            = a :: List.filter (fun it : Int × Transform α => !(getNodeInfo it.1).isNull)
                rest := by
          simp only [List.filter_cons, ha, if_true]
        rw [h3, hstep, hf]
        simp only [List.length_cons]
        omega
    · have ha' : (!(getNodeInfo a.1).isNull) = false := by simpa using ha
      rw [collect_body_of_null getNodeInfo st a ha']
      obtain ⟨h1, h2, h3⟩ := ih st hoi hk
      refine ⟨h1, h2, ?_⟩
      have hf : (List.filter (fun it : Int × Transform α => !(getNodeInfo it.1).isNull)
          (a :: rest))
          = List.filter (fun it : Int × Transform α => !(getNodeInfo it.1).isNull) rest := by
        simp only [List.filter_cons, ha', Bool.false_eq_true, if_false]
      rw [h3, hf]

/-- The state after the first loop when `(id0, B0)` is the first pose with
ground truth. -/
theorem collect_of_first (getNodeInfo : Int → Transform α) (poses : PoseMap α)
    (id0 : Int) (B0 : Transform α)
    (hfirst : poses.find? (fun it => !(getNodeInfo it.1).isNull) = some (id0, B0)) :
    (collect getNodeInfo poses).idFirst = id0
      ∧ List.lookup id0 (collect getNodeInfo poses).groundTruth = some (getNodeInfo id0)
      ∧ (collect getNodeInfo poses).oi
          = (poses.filter (fun it => !(getNodeInfo it.1).isNull)).length
      ∧ List.lookup id0 poses = some B0 := by
  obtain ⟨hp, pre, post, hposes, hpre⟩ := List.find?_eq_some.mp hfirst
  have hpre' : ∀ a ∈ pre, (!(getNodeInfo a.1).isNull) = false := by
    intro a ha
    simpa using hpre a ha
  have hstart : collect_body getNodeInfo
      { groundTruth := [], cloud1 := [], cloud2 := [], oi := 0, idFirst := 0 } (id0, B0)
      = { groundTruth := [(id0, getNodeInfo id0)]
          idFirst := id0
          cloud1 := [⟨(getNodeInfo id0).x, (getNodeInfo id0).y, (getNodeInfo id0).z⟩]
          cloud2 := [⟨B0.x, B0.y, B0.z⟩]
          oi := 1 } := by
    simp only [collect_body, if_pos hp]
    simp [PoseMap.insert]
  obtain ⟨h1, h2, h3⟩ := collect_foldl_of_started getNodeInfo post
    (collect_body getNodeInfo
      { groundTruth := [], cloud1 := [], cloud2 := [], oi := 0, idFirst := 0 } (id0, B0))
    id0 (getNodeInfo id0) (by rw [hstart]; exact Nat.one_ne_zero)
    (by rw [hstart]; simp)
  have hcollect : collect getNodeInfo poses
      = post.foldl (collect_body getNodeInfo)
          (collect_body getNodeInfo
            { groundTruth := [], cloud1 := [], cloud2 := [], oi := 0, idFirst := 0 }
            (id0, B0)) := by
    unfold collect
    rw [hposes, List.foldl_append, collect_foldl_of_null getNodeInfo pre _ hpre']
    rfl
  have hfilter : (poses.filter (fun it => !(getNodeInfo it.1).isNull)).length
      = 1 + (post.filter (fun it => !(getNodeInfo it.1).isNull)).length := by
    have hf : (List.filter (fun it : Int × Transform α => !(getNodeInfo it.1).isNull)
        ((id0, B0) :: post))
        = (id0, B0) :: List.filter (fun it : Int × Transform α => !(getNodeInfo it.1).isNull)
            post := by
      simp only [List.filter_cons, hp, if_true]
    rw [hposes, List.filter_append, hf]
    have : pre.filter (fun it => !(getNodeInfo it.1).isNull) = [] := by
      rw [List.filter_eq_nil_iff]
      intro a ha
      simpa using hpre a ha
    rw [this]
    simp only [List.nil_append, List.length_cons]
    omega
  refine ⟨?_, ?_, ?_, ?_⟩
  · rw [hcollect, h1, hstart]
  · rw [hcollect]; exact h2
  · rw [hcollect, h3, hstart, hfilter]
  · rw [List.lookup_eq_some_iff]
    refine ⟨pre, post, hposes, fun p hp' => ?_⟩
    have hnull := hpre' p hp'
    simp only [bne_iff_ne, ne_eq]
    intro hk
    rw [← hk] at hnull
    rw [hnull] at hp
    exact Bool.false_ne_true hp

end groundTruthAlignment

section anchorAlignment

open KittiDataset

variable {α : Type} [CommRing α]

theorem Transform.mul_apply (t o : Transform α) (i : Fin 3) (j : Fin 4) :
    (t.mul o) i j
      = t i 0 * o 0 j + t i 1 * o 1 j + t i 2 * o 2 j + (if j = 3 then t i 3 else 0) := by
  fin_cases i <;> fin_cases j <;> simp [Transform.mul]

/-- For a transform `B` with orthonormal rotation block, `(A * B⁻¹) * B = A`. -/
theorem Transform.mul_inverse_mul (A B : Transform α)
    (hB : B.rotation.transpose * B.rotation = 1) :
    (A.mul B.inverse).mul B = A := by
  obtain ⟨⟨e00, e01, e02⟩, ⟨e10, e11, e12⟩, ⟨e20, e21, e22⟩⟩ :=
    rotation_orthonormal_entries B hB
  funext i j
  rw [Transform.mul_apply]
  simp only [Transform.mul_apply]
  fin_cases j
  · simp [Transform.inverse]
    linear_combination A i 0 * e00 + A i 1 * e10 + A i 2 * e20
  · simp [Transform.inverse]
    linear_combination A i 0 * e01 + A i 1 * e11 + A i 2 * e21
  · simp [Transform.inverse]
    linear_combination A i 0 * e02 + A i 1 * e12 + A i 2 * e22
  · simp [Transform.inverse]
    ring

variable [DecidableEq α]

/-- C12: for every estimated trajectory (a pose map with valid node ids) in
which the number `n` of poses with a non-null ground-truth pose satisfies
`1 ≤ n ≤ 5`, the alignment transform is `T = A0 * B0⁻¹`, where `B0` is the
first estimated pose (in id order) that has ground truth and `A0` is its
ground-truth pose; consequently, `B0` being rigid, `T * B0 = A0`. -/
theorem alignment_anchor (getNodeInfo : Int → Transform α)
    (transformFromXYZCorrespondencesSVD :
      PointCloud (PointXYZ α) → PointCloud (PointXYZ α) → Transform α)
    (poses : PoseMap α) (id0 : Int) (B0 : Transform α)
    (hids : poses.ValidIds)
    (hfirst : poses.find? (fun it => !(getNodeInfo it.1).isNull) = some (id0, B0))
    (hn : (poses.filter (fun it => !(getNodeInfo it.1).isNull)).length ≤ 5) :
    1 ≤ (poses.filter (fun it => !(getNodeInfo it.1).isNull)).length
      ∧ alignment transformFromXYZCorrespondencesSVD poses (collect getNodeInfo poses)
          = some ((getNodeInfo id0).mul B0.inverse)
      ∧ (B0.IsRigid → ((getNodeInfo id0).mul B0.inverse).mul B0 = getNodeInfo id0) := by
  obtain ⟨h1, h2, h3, h4⟩ := collect_of_first getNodeInfo poses id0 B0 hfirst
  have hid : id0 ≠ 0 := by
    have hpos : 0 < (id0, B0).1 := hids _ (List.mem_of_find?_eq_some hfirst)
    exact ne_of_gt hpos
  refine ⟨?_, ?_, fun hB => Transform.mul_inverse_mul _ _ hB.1⟩
  · have hmem : (id0, B0) ∈ poses.filter (fun it => !(getNodeInfo it.1).isNull) := by
      rw [List.mem_filter]
      exact ⟨List.mem_of_find?_eq_some hfirst, (List.find?_eq_some.mp hfirst).1⟩
    exact List.length_pos_of_mem hmem
  · unfold alignment
    have hle : ¬ (collect getNodeInfo poses).oi > 5 := by rw [h3]; omega
    simp only [if_neg hle, h1, hid, ne_eq, not_false_eq_true, if_true, h4]
    rw [h2]

/-- Witness of C12 over `ℤ`: poses `1` and `2`, of which `2` is the first with
ground truth (the quarter turn about `z` with a translation), its estimate
being the translation by `(1, 0, 0)`. -/
theorem alignment_anchor_witness :
    PoseMap.ValidIds ([((1 : Int), (Transform.getIdentity : Transform ℤ)),
        (2, ![![1, 0, 0, 1], ![0, 1, 0, 0], ![0, 0, 1, 0]])])
      ∧ ([((1 : Int), (Transform.getIdentity : Transform ℤ)),
        (2, ![![1, 0, 0, 1], ![0, 1, 0, 0], ![0, 0, 1, 0]])].find?
        (fun it => !(Transform.isNull
          (if it.1 = 2 then (![![0, -1, 0, 5], ![1, 0, 0, 6], ![0, 0, 1, 7]] : Transform ℤ)
            else Transform.null)))
        = some (2, ![![1, 0, 0, 1], ![0, 1, 0, 0], ![0, 0, 1, 0]]))
      ∧ alignment (fun _ _ => (Transform.null : Transform ℤ))
          [((1 : Int), (Transform.getIdentity : Transform ℤ)),
            (2, ![![1, 0, 0, 1], ![0, 1, 0, 0], ![0, 0, 1, 0]])]
          (collect (fun id => if id = 2 then ![![0, -1, 0, 5], ![1, 0, 0, 6], ![0, 0, 1, 7]]
              else Transform.null)
            [((1 : Int), (Transform.getIdentity : Transform ℤ)),
              (2, ![![1, 0, 0, 1], ![0, 1, 0, 0], ![0, 0, 1, 0]])])
        = some (Transform.mul ![![0, -1, 0, 5], ![1, 0, 0, 6], ![0, 0, 1, 7]]
            (Transform.inverse ![![1, 0, 0, 1], ![0, 1, 0, 0], ![0, 0, 1, 0]])) := by
  have hids : PoseMap.ValidIds ([((1 : Int), (Transform.getIdentity : Transform ℤ)),
      (2, ![![1, 0, 0, 1], ![0, 1, 0, 0], ![0, 0, 1, 0]])]) := by
    intro it hit
    simp only [List.mem_cons, List.mem_singleton, List.not_mem_nil, or_false] at hit
    rcases hit with h | h <;> subst h <;> decide
  have hfirst : ([((1 : Int), (Transform.getIdentity : Transform ℤ)),
        (2, ![![1, 0, 0, 1], ![0, 1, 0, 0], ![0, 0, 1, 0]])].find?
        (fun it => !(Transform.isNull
          (if it.1 = 2 then (![![0, -1, 0, 5], ![1, 0, 0, 6], ![0, 0, 1, 7]] : Transform ℤ)
            else Transform.null)))
        = some (2, ![![1, 0, 0, 1], ![0, 1, 0, 0], ![0, 0, 1, 0]])) := by
    decide
  exact ⟨hids, hfirst, (alignment_anchor
    (fun id => if id = 2 then (![![0, -1, 0, 5], ![1, 0, 0, 6], ![0, 0, 1, 7]] : Transform ℤ)
      else Transform.null)
    (fun _ _ => Transform.null) _ 2 _ hids hfirst (by decide)).2.1⟩

end anchorAlignment

/-! ## Applying the alignment -/

section applyAlignment

open KittiDataset

variable {α : Type} [LinearOrderedField α]

theorem Transform.isIdentity_getIdentity :
    Transform.isIdentity (Transform.getIdentity : Transform α) = true := by
  simp [Transform.isIdentity]

/-- With no pose having ground truth, the first loop leaves `oi = 0` and
`idFirst = 0`, and the alignment transform stays the identity. -/
theorem alignment_of_no_ground_truth (getNodeInfo : Int → Transform α)
    (transformFromXYZCorrespondencesSVD :
      PointCloud (PointXYZ α) → PointCloud (PointXYZ α) → Transform α)
    (poses : PoseMap α)
    (h0 : poses.filter (fun it => !(getNodeInfo it.1).isNull) = []) :
    alignment transformFromXYZCorrespondencesSVD poses (collect getNodeInfo poses)
      = some Transform.getIdentity := by
  have hnull : ∀ a ∈ poses, (!(getNodeInfo a.1).isNull) = false := by
    intro a ha
    have := (List.filter_eq_nil_iff.mp h0) a ha
    simpa using this
  unfold collect
  rw [collect_foldl_of_null getNodeInfo poses _ hnull]
  simp [alignment]

theorem Transform.isIdentity_eq_false (t : Transform α) (i : Fin 3) (j : Fin 4)
    (h : t i j ≠ (Transform.getIdentity : Transform α) i j) : t.isIdentity = false := by
  unfold Transform.isIdentity
  rw [decide_eq_false_iff_not]
  intro hall
  exact h (hall i j)

theorem realign_of_not_identity (t : Transform α) (poses : PoseMap α)
    (h : t.isIdentity = false) :
    realign t poses = poses.map (fun iter => (iter.1, t.mul iter.2)) := by
  simp [realign, h]

theorem realign_of_identity (t : Transform α) (poses : PoseMap α)
    (h : t.isIdentity = true) : realign t poses = poses := by
  simp [realign, h]

theorem groundTruthComparison_of_alignment (getNodeInfo : Int → Transform α)
    (calcKittiSequenceErrors : List (Transform α) → List (Transform α) → α × α)
    (transformFromXYZCorrespondencesSVD :
      PointCloud (PointXYZ α) → PointCloud (PointXYZ α) → Transform α)
    (getAngle getDistance : Transform α → Transform α → α) (poses : PoseMap α)
    (t : Transform α)
    (ht : alignment transformFromXYZCorrespondencesSVD poses (collect getNodeInfo poses)
      = some t) :
    groundTruthComparison getNodeInfo calcKittiSequenceErrors
        transformFromXYZCorrespondencesSVD getAngle getDistance poses
      = some (calcKittiSequenceErrors (uValues (collect getNodeInfo poses).groundTruth)
            (uValues poses),
          realign t poses,
          errors getAngle getDistance (collect getNodeInfo poses).groundTruth
            (realign t poses),
          report (errors getAngle getDistance (collect getNodeInfo poses).groundTruth
            (realign t poses))) := by
  simp only [groundTruthComparison, ht]

/-- C14, amended: whenever the alignment transform `T` is not the identity,
every pose of the estimated trajectory (with or without ground truth) is
replaced by `T * pose` before the translational and rotational errors of the
error loop and the values reported from them are computed, the pose ids and
their order unchanged; when `T` is the identity no pose is modified.  The KITTI
errors `t_err`, `r_err` are computed before, from the poses as estimated.  With
no correspondence (`n = 0`), `T` is the identity. -/
theorem groundTruthComparison_realign (getNodeInfo : Int → Transform α)
    (calcKittiSequenceErrors : List (Transform α) → List (Transform α) → α × α)
    (transformFromXYZCorrespondencesSVD :
      PointCloud (PointXYZ α) → PointCloud (PointXYZ α) → Transform α)
    (getAngle getDistance : Transform α → Transform α → α) (poses : PoseMap α)
    (t : Transform α)
    (ht : alignment transformFromXYZCorrespondencesSVD poses (collect getNodeInfo poses)
      = some t) :
    groundTruthComparison getNodeInfo calcKittiSequenceErrors
        transformFromXYZCorrespondencesSVD getAngle getDistance poses
      = some (calcKittiSequenceErrors (uValues (collect getNodeInfo poses).groundTruth)
            (uValues poses),
          realign t poses,
          errors getAngle getDistance (collect getNodeInfo poses).groundTruth
            (realign t poses),
          report (errors getAngle getDistance (collect getNodeInfo poses).groundTruth
            (realign t poses)))
      ∧ (t.isIdentity = false →
          realign t poses = poses.map (fun iter => (iter.1, t.mul iter.2)))
      ∧ (t.isIdentity = true → realign t poses = poses)
      ∧ (realign t poses).map Prod.fst = poses.map Prod.fst
      ∧ (poses.filter (fun it => !(getNodeInfo it.1).isNull) = [] →
          t = Transform.getIdentity) := by
  refine ⟨groundTruthComparison_of_alignment getNodeInfo calcKittiSequenceErrors
    transformFromXYZCorrespondencesSVD getAngle getDistance poses t ht,
    realign_of_not_identity t poses, realign_of_identity t poses, ?_, ?_⟩
  · unfold realign
    split
    · simp [List.map_map, Function.comp_def]
    · rfl
  · intro h0
    have hid := alignment_of_no_ground_truth getNodeInfo transformFromXYZCorrespondencesSVD
      poses h0
    rw [ht] at hid
    exact Option.some.inj hid

end applyAlignment

/-! ## Error statistics -/

section errorLoop

open KittiDataset

variable {α : Type} [LinearOrderedField α]

/-- Recording one more value after the update of the code keeps the minimum and
maximum exact. -/
theorem minmax_step (l : List α) (mn mx e : α)
    (h : l ≠ [] → mn ∈ l ∧ mx ∈ l ∧ ∀ x ∈ l, mn ≤ x ∧ x ≤ mx) (hl : l ≠ []) :
    (if e < mn then e else mn) ∈ l ++ [e]
      ∧ (if e < mn then mx else if e > mx then e else mx) ∈ l ++ [e]
      ∧ ∀ x ∈ l ++ [e], (if e < mn then e else mn) ≤ x
          ∧ x ≤ (if e < mn then mx else if e > mx then e else mx) := by
  obtain ⟨hmn, hmx, hb⟩ := h hl
  have hmnmx : mn ≤ mx := (hb mn hmn).2
  by_cases h1 : e < mn
  · simp only [if_pos h1]
    refine ⟨by simp, by simp [hmx], fun x hx => ?_⟩
    rcases List.mem_append.mp hx with hx | hx
    · exact ⟨le_trans (le_of_lt h1) (hb x hx).1, (hb x hx).2⟩
    · have : x = e := by simpa using hx
      subst this
      exact ⟨le_refl _, le_trans (le_of_lt h1) hmnmx⟩
  · simp only [if_neg h1]
    by_cases h2 : e > mx
    · simp only [if_pos h2]
      refine ⟨by simp [hmn], by simp, fun x hx => ?_⟩
      rcases List.mem_append.mp hx with hx | hx
      · exact ⟨(hb x hx).1, le_trans (hb x hx).2 (le_of_lt h2)⟩
      · have : x = e := by simpa using hx
        subst this
        exact ⟨le_of_not_lt h1, le_refl _⟩
    · simp only [if_neg h2]
      refine ⟨by simp [hmn], by simp [hmx], fun x hx => ?_⟩
      rcases List.mem_append.mp hx with hx | hx
      · exact hb x hx
      · have : x = e := by simpa using hx
        subst this
        exact ⟨le_of_not_lt h1, le_of_not_lt h2⟩

theorem errors_body_consistent (getAngle getDistance : Transform α → Transform α → α)
    (groundTruth : PoseMap α) (st : ErrorStats α) (iter : Int × Transform α)
    (hst : st.Consistent) :
    (errors_body getAngle getDistance groundTruth st iter).Consistent := by
  unfold errors_body
  cases hlook : groundTruth.lookup iter.1 with
  | none => exact hst
  | some jter =>
    obtain ⟨ht, hr, hmm⟩ := hst
    simp only
    by_cases h0 : st.oi = 0
    · simp only [if_pos h0]
      have htn : st.translationalErrors = [] := List.eq_nil_of_length_eq_zero (ht.trans h0)
      have hrn : st.rotationalErrors = [] := List.eq_nil_of_length_eq_zero (hr.trans h0)
      refine ⟨by simp [ht], by simp [hr], fun _ => ?_⟩
      simp [htn, hrn]
    · simp only [if_neg h0]
      have htne : st.translationalErrors ≠ [] := by
        intro h; rw [h] at ht; exact h0 ht.symm
      have hrne : st.rotationalErrors ≠ [] := by
        intro h; rw [h] at hr; exact h0 hr.symm
      generalize getDistance iter.2 jter = e
      generalize getAngle iter.2 jter * (180.0 / M_PI) = r
      have T := minmax_step st.translationalErrors st.translational_min st.translational_max
        e (fun _ => (hmm h0).1) htne
      have R := minmax_step st.rotationalErrors st.rotational_min st.rotational_max
        r (fun _ => (hmm h0).2) hrne
      by_cases c1 : e < st.translational_min <;> by_cases c2 : e > st.translational_max <;>
        by_cases c3 : r < st.rotational_min <;> by_cases c4 : r > st.rotational_max <;>
        simp only [c1, c2, c3, c4, if_true, if_false] at T R ⊢ <;>
        exact ⟨by simp [ht], by simp [hr], fun _ => ⟨T, R⟩⟩

theorem errors_foldl_consistent (getAngle getDistance : Transform α → Transform α → α)
    (groundTruth : PoseMap α) (poses : PoseMap α) (st : ErrorStats α) (hst : st.Consistent) :
    (poses.foldl (errors_body getAngle getDistance groundTruth) st).Consistent := by
  induction poses generalizing st with
  | nil => exact hst
  | cons a rest ih =>
    simp only [List.foldl_cons]
    exact ih _ (errors_body_consistent getAngle getDistance groundTruth st a hst)

/-- The error loop records, in pose order, one translational and one
rotational error per pose that has a ground-truth entry. -/
theorem errors_body_lists (getAngle getDistance : Transform α → Transform α → α)
    (groundTruth : PoseMap α) (st : ErrorStats α) (iter : Int × Transform α) :
    (errors_body getAngle getDistance groundTruth st iter).translationalErrors
        = st.translationalErrors
          ++ ((List.lookup iter.1 groundTruth).map (fun jter => getDistance iter.2 jter)).toList
      ∧ (errors_body getAngle getDistance groundTruth st iter).rotationalErrors
        = st.rotationalErrors
          ++ ((List.lookup iter.1 groundTruth).map
              (fun jter => getAngle iter.2 jter * (180.0 / M_PI))).toList := by
  unfold errors_body
  cases hlook : List.lookup iter.1 groundTruth with
  | none => simp
  | some jter =>
    simp only [Option.map_some', Option.toList_some]
    generalize getDistance iter.2 jter = e
    generalize getAngle iter.2 jter * (180.0 / M_PI) = r
    by_cases h0 : st.oi = 0
    · simp [h0]
    · by_cases c1 : e < st.translational_min <;> by_cases c2 : e > st.translational_max <;>
        by_cases c3 : r < st.rotational_min <;> by_cases c4 : r > st.rotational_max <;>
        simp [h0, c1, c2, c3, c4]

theorem errors_foldl_lists (getAngle getDistance : Transform α → Transform α → α)
    (groundTruth : PoseMap α) (poses : PoseMap α) (st : ErrorStats α) :
    (poses.foldl (errors_body getAngle getDistance groundTruth) st).translationalErrors
        = st.translationalErrors
          ++ poses.filterMap (fun iter =>
              (List.lookup iter.1 groundTruth).map (fun jter => getDistance iter.2 jter))
      ∧ (poses.foldl (errors_body getAngle getDistance groundTruth) st).rotationalErrors
        = st.rotationalErrors
          ++ poses.filterMap (fun iter =>
              (List.lookup iter.1 groundTruth).map
                (fun jter => getAngle iter.2 jter * (180.0 / M_PI))) := by
  induction poses generalizing st with
  | nil => simp
  | cons a rest ih =>
    simp only [List.foldl_cons]
    obtain ⟨h1, h2⟩ := ih (errors_body getAngle getDistance groundTruth st a)
    obtain ⟨b1, b2⟩ := errors_body_lists getAngle getDistance groundTruth st a
    rw [h1, h2, b1, b2]
    constructor
    · cases hl : List.lookup a.1 groundTruth <;> simp [List.filterMap_cons, hl]
    · cases hl : List.lookup a.1 groundTruth <;> simp [List.filterMap_cons, hl]

theorem errors_consistent (getAngle getDistance : Transform α → Transform α → α)
    (groundTruth : PoseMap α) (poses : PoseMap α) :
    (errors getAngle getDistance groundTruth poses).Consistent := by
  unfold errors
  apply errors_foldl_consistent
  refine ⟨rfl, rfl, fun h => absurd rfl h⟩

theorem errors_lists (getAngle getDistance : Transform α → Transform α → α)
    (groundTruth : PoseMap α) (poses : PoseMap α) :
    (errors getAngle getDistance groundTruth poses).translationalErrors
        = poses.filterMap (fun iter =>
            (List.lookup iter.1 groundTruth).map (fun jter => getDistance iter.2 jter))
      ∧ (errors getAngle getDistance groundTruth poses).rotationalErrors
        = poses.filterMap (fun iter =>
            (List.lookup iter.1 groundTruth).map
              (fun jter => getAngle iter.2 jter * (180.0 / M_PI))) := by
  unfold errors
  obtain ⟨h1, h2⟩ := errors_foldl_lists getAngle getDistance groundTruth poses
    { translationalErrors := [], rotationalErrors := []
      sumTranslationalErrors := 0, sumRotationalErrors := 0
      sumSqrdTranslationalErrors := 0, sumSqrdRotationalErrors := 0
      translational_min := 0, translational_max := 0
      rotational_min := 0, rotational_max := 0
      oi := 0 }
  rw [h1, h2]
  simp

/-- C19: after the error loop over a trajectory with at least one
ground-truth correspondence, `translational_min` is the least and
`translational_max` the greatest of the recorded translational errors, and
likewise `rotational_min` and `rotational_max` for the rotational errors: each
is a recorded error and `min ≤ e ≤ max` for every recorded error `e`. -/
theorem errors_min_max (getAngle getDistance : Transform α → Transform α → α)
    (groundTruth : PoseMap α) (poses : PoseMap α)
    (hgt : ∃ iter ∈ poses, (List.lookup iter.1 groundTruth).isSome = true) :
    ((errors getAngle getDistance groundTruth poses).translational_min
          ∈ (errors getAngle getDistance groundTruth poses).translationalErrors
        ∧ (errors getAngle getDistance groundTruth poses).translational_max
          ∈ (errors getAngle getDistance groundTruth poses).translationalErrors
        ∧ ∀ e ∈ (errors getAngle getDistance groundTruth poses).translationalErrors,
            (errors getAngle getDistance groundTruth poses).translational_min ≤ e
              ∧ e ≤ (errors getAngle getDistance groundTruth poses).translational_max)
      ∧ ((errors getAngle getDistance groundTruth poses).rotational_min
          ∈ (errors getAngle getDistance groundTruth poses).rotationalErrors
        ∧ (errors getAngle getDistance groundTruth poses).rotational_max
          ∈ (errors getAngle getDistance groundTruth poses).rotationalErrors
        ∧ ∀ e ∈ (errors getAngle getDistance groundTruth poses).rotationalErrors,
            (errors getAngle getDistance groundTruth poses).rotational_min ≤ e
              ∧ e ≤ (errors getAngle getDistance groundTruth poses).rotational_max) := by
  obtain ⟨hlen, _, hmm⟩ := errors_consistent getAngle getDistance groundTruth poses
  apply hmm
  intro h0
  rw [← hlen, (errors_lists getAngle getDistance groundTruth poses).1] at h0
  obtain ⟨iter, hmem, hsome⟩ := hgt
  obtain ⟨jter, hj⟩ := Option.isSome_iff_exists.mp hsome
  have hin : getDistance iter.2 jter ∈ poses.filterMap (fun iter =>
      (List.lookup iter.1 groundTruth).map (fun jter => getDistance iter.2 jter)) := by
    rw [List.mem_filterMap]
    exact ⟨iter, hmem, by simp [hj]⟩
  rw [List.eq_nil_of_length_eq_zero h0] at hin
  exact List.not_mem_nil _ hin

end errorLoop

/-! ## The reported median -/

section reportedMedian

open KittiDataset

theorem Transform.mul_inverse_getIdentity {α : Type} [CommRing α] :
    Transform.mul (Transform.getIdentity : Transform α) (Transform.inverse Transform.getIdentity)
      = Transform.getIdentity := by
  funext i j
  fin_cases i <;> fin_cases j <;>
    simp [Transform.mul, Transform.inverse, Transform.getIdentity, Matrix.vecHead, Matrix.vecTail]

theorem realign_getIdentity {α : Type} [LinearOrderedField α] (poses : PoseMap α) :
    realign (Transform.getIdentity : Transform α) poses = poses := by
  simp [realign, Transform.isIdentity_getIdentity]

theorem report_median {α : Type} [LinearOrderedField α] (st : ErrorStats α) (r : Report α)
    (h : report st = some r) :
    r.translational_median = st.translationalErrors.getD (st.oi / 2) 0
      ∧ r.rotational_median = st.rotationalErrors.getD (st.oi / 2) 0 := by
  unfold report at h
  split at h
  · simp only [Option.some.injEq] at h
    subst h
    exact ⟨rfl, rfl⟩
  · exact absurd h (by simp)

/-- C18 (defect of the code): the claim asks that the reported
`translational_median` be a median of the recorded errors.  The code reports
`translationalErrors[oi/2]` of the vector in pose order, never sorted.  Poses
`1, 2, 3` at the identity, with ground truth the identity, the translation by
`(5, 0, 0)` and the translation by `(2, 0, 0)`, have the recorded errors
`0, 5, 2`; the reported median is `5`, and only one of the three recorded
errors is at least `5`.  (No rotation error, and the distance of two poses that
differ along `x` is the absolute difference of their `x`.) -/
theorem translational_median_not_median :
    ∃ stats r,
      groundTruthComparison
          (fun id => if id = 1 then (Transform.getIdentity : Transform ℚ)
            else if id = 2 then ![![1, 0, 0, 5], ![0, 1, 0, 0], ![0, 0, 1, 0]]
            else if id = 3 then ![![1, 0, 0, 2], ![0, 1, 0, 0], ![0, 0, 1, 0]]
            else Transform.null)
          (fun _ _ => (0, 0)) (fun _ _ => Transform.null) (fun _ _ => 0)
          (fun pose gt => |pose.x - gt.x|)
          [(1, Transform.getIdentity), (2, Transform.getIdentity), (3, Transform.getIdentity)]
        = some ((0, 0), [(1, Transform.getIdentity), (2, Transform.getIdentity),
            (3, Transform.getIdentity)], stats, some r)
      ∧ stats.translationalErrors = [0, 5, 2]
      ∧ r.translational_median = 5
      ∧ stats.translationalErrors.filter (fun e => decide (r.translational_median ≤ e)) = [5] := by
  have hal : alignment (fun _ _ => (Transform.null : Transform ℚ))
      [(1, Transform.getIdentity), (2, Transform.getIdentity), (3, Transform.getIdentity)]
      (collect (fun id => if id = 1 then (Transform.getIdentity : Transform ℚ)
            else if id = 2 then ![![1, 0, 0, 5], ![0, 1, 0, 0], ![0, 0, 1, 0]]
            else if id = 3 then ![![1, 0, 0, 2], ![0, 1, 0, 0], ![0, 0, 1, 0]]
            else Transform.null)
        [(1, Transform.getIdentity), (2, Transform.getIdentity), (3, Transform.getIdentity)])
      = some (Transform.mul Transform.getIdentity (Transform.inverse Transform.getIdentity)) := by
    rfl
  have hgt : (collect (fun id => if id = 1 then (Transform.getIdentity : Transform ℚ)
            else if id = 2 then ![![1, 0, 0, 5], ![0, 1, 0, 0], ![0, 0, 1, 0]]
            else if id = 3 then ![![1, 0, 0, 2], ![0, 1, 0, 0], ![0, 0, 1, 0]]
            else Transform.null)
        [(1, Transform.getIdentity), (2, Transform.getIdentity),
          (3, Transform.getIdentity)]).groundTruth
      = [(1, Transform.getIdentity), (2, ![![1, 0, 0, 5], ![0, 1, 0, 0], ![0, 0, 1, 0]]),
          (3, ![![1, 0, 0, 2], ![0, 1, 0, 0], ![0, 0, 1, 0]])] := by
    rfl
  simp only [groundTruthComparison, hal, Transform.mul_inverse_getIdentity,
    realign_getIdentity, hgt]
  have hl := (errors_lists (fun _ _ => (0 : ℚ)) (fun pose gt => |pose.x - gt.x|)
    [(1, Transform.getIdentity), (2, ![![1, 0, 0, 5], ![0, 1, 0, 0], ![0, 0, 1, 0]]),
      (3, ![![1, 0, 0, 2], ![0, 1, 0, 0], ![0, 0, 1, 0]])]
    [(1, Transform.getIdentity), (2, Transform.getIdentity), (3, Transform.getIdentity)]).1
  have hcons := errors_consistent (fun _ _ => (0 : ℚ)) (fun pose gt => |pose.x - gt.x|)
    [(1, Transform.getIdentity), (2, ![![1, 0, 0, 5], ![0, 1, 0, 0], ![0, 0, 1, 0]]),
      (3, ![![1, 0, 0, 2], ![0, 1, 0, 0], ![0, 0, 1, 0]])]
    [(1, Transform.getIdentity), (2, Transform.getIdentity), (3, Transform.getIdentity)]
  generalize errors (fun _ _ => (0 : ℚ)) (fun pose gt => |pose.x - gt.x|)
    [(1, Transform.getIdentity), (2, ![![1, 0, 0, 5], ![0, 1, 0, 0], ![0, 0, 1, 0]]),
      (3, ![![1, 0, 0, 2], ![0, 1, 0, 0], ![0, 0, 1, 0]])]
    [(1, Transform.getIdentity), (2, Transform.getIdentity), (3, Transform.getIdentity)]
    = S at hl hcons ⊢
  have hl' : S.translationalErrors = [0, 5, 2] := by
    rw [hl]
    simp [List.filterMap, List.lookup, Transform.x, Transform.getIdentity]
  have hoi : S.oi = 3 := by
    rw [← hcons.1, hl']
    rfl
  have hrep : ∃ r, report S = some r := by
    unfold report
    rw [if_pos (by rw [hoi]; decide)]
    exact ⟨_, rfl⟩
  obtain ⟨r, hr⟩ := hrep
  have hmed : r.translational_median = 5 := by
    rw [(report_median S r hr).1, hl', hoi]
    rfl
  refine ⟨S, r, by rw [hr], hl', hmed, ?_⟩
  rw [hmed, hl']
  simp [List.filter]
  norm_num

/-- Witness of C19 over `ℚ`: the error loop over poses `1, 2, 3`, all with a
ground-truth entry. -/
theorem errors_min_max_witness :
    (∃ iter ∈ ([(1, Transform.getIdentity), (2, Transform.getIdentity),
          (3, Transform.getIdentity)] : PoseMap ℚ),
        (List.lookup iter.1
          ([(1, Transform.getIdentity), (2, ![![1, 0, 0, 5], ![0, 1, 0, 0], ![0, 0, 1, 0]]),
            (3, ![![1, 0, 0, 2], ![0, 1, 0, 0], ![0, 0, 1, 0]])] : PoseMap ℚ)).isSome = true)
      ∧ ∀ e ∈ (errors (fun _ _ => (0 : ℚ)) (fun pose gt => |pose.x - gt.x|)
            [(1, Transform.getIdentity), (2, ![![1, 0, 0, 5], ![0, 1, 0, 0], ![0, 0, 1, 0]]),
              (3, ![![1, 0, 0, 2], ![0, 1, 0, 0], ![0, 0, 1, 0]])]
            [(1, Transform.getIdentity), (2, Transform.getIdentity),
              (3, Transform.getIdentity)]).translationalErrors,
          (errors (fun _ _ => (0 : ℚ)) (fun pose gt => |pose.x - gt.x|)
            [(1, Transform.getIdentity), (2, ![![1, 0, 0, 5], ![0, 1, 0, 0], ![0, 0, 1, 0]]),
              (3, ![![1, 0, 0, 2], ![0, 1, 0, 0], ![0, 0, 1, 0]])]
            [(1, Transform.getIdentity), (2, Transform.getIdentity),
              (3, Transform.getIdentity)]).translational_min ≤ e
          ∧ e ≤ (errors (fun _ _ => (0 : ℚ)) (fun pose gt => |pose.x - gt.x|)
            [(1, Transform.getIdentity), (2, ![![1, 0, 0, 5], ![0, 1, 0, 0], ![0, 0, 1, 0]]),
              (3, ![![1, 0, 0, 2], ![0, 1, 0, 0], ![0, 0, 1, 0]])]
            [(1, Transform.getIdentity), (2, Transform.getIdentity),
              (3, Transform.getIdentity)]).translational_max := by
  have hgt : ∃ iter ∈ ([(1, Transform.getIdentity), (2, Transform.getIdentity),
        (3, Transform.getIdentity)] : PoseMap ℚ),
      (List.lookup iter.1
        ([(1, Transform.getIdentity), (2, ![![1, 0, 0, 5], ![0, 1, 0, 0], ![0, 0, 1, 0]]),
          (3, ![![1, 0, 0, 2], ![0, 1, 0, 0], ![0, 0, 1, 0]])] : PoseMap ℚ)).isSome = true :=
    ⟨(1, Transform.getIdentity), by simp, rfl⟩
  exact ⟨hgt, (errors_min_max _ _ _ _ hgt).1.2.2⟩

theorem twoPose_anchor :
    Transform.mul (![![1, 0, 0, 1], ![0, 1, 0, 0], ![0, 0, 1, 0]] : Transform ℚ)
        (Transform.inverse Transform.getIdentity)
      = ![![1, 0, 0, 1], ![0, 1, 0, 0], ![0, 0, 1, 0]] := by
  funext i j
  fin_cases i <;> fin_cases j <;>
    simp [Transform.mul, Transform.inverse, Transform.getIdentity, Matrix.vecHead, Matrix.vecTail]

/-- The anchor alignment of the two-pose run used below: poses `1` (the
identity) and `2` (the translation by `(5, 0, 0)`), with ground truth the
translations by `(1, 0, 0)` and `(7, 0, 0)`; the alignment transform is the
translation by `(1, 0, 0)`. -/
theorem twoPose_alignment :
    alignment (fun _ _ => (Transform.null : Transform ℚ))
        [(1, Transform.getIdentity), (2, ![![1, 0, 0, 5], ![0, 1, 0, 0], ![0, 0, 1, 0]])]
        (collect (fun id => if id = 1 then ![![1, 0, 0, 1], ![0, 1, 0, 0], ![0, 0, 1, 0]]
            else if id = 2 then ![![1, 0, 0, 7], ![0, 1, 0, 0], ![0, 0, 1, 0]]
            else Transform.null)
          [(1, Transform.getIdentity), (2, ![![1, 0, 0, 5], ![0, 1, 0, 0], ![0, 0, 1, 0]])])
      = some ![![1, 0, 0, 1], ![0, 1, 0, 0], ![0, 0, 1, 0]] := by
  have h : alignment (fun _ _ => (Transform.null : Transform ℚ))
        [(1, Transform.getIdentity), (2, ![![1, 0, 0, 5], ![0, 1, 0, 0], ![0, 0, 1, 0]])]
        (collect (fun id => if id = 1 then ![![1, 0, 0, 1], ![0, 1, 0, 0], ![0, 0, 1, 0]]
            else if id = 2 then ![![1, 0, 0, 7], ![0, 1, 0, 0], ![0, 0, 1, 0]]
            else Transform.null)
          [(1, Transform.getIdentity), (2, ![![1, 0, 0, 5], ![0, 1, 0, 0], ![0, 0, 1, 0]])])
      = some (Transform.mul ![![1, 0, 0, 1], ![0, 1, 0, 0], ![0, 0, 1, 0]]
          (Transform.inverse Transform.getIdentity)) := by
    rfl
  rw [h, twoPose_anchor]

theorem twoPose_groundTruth :
    uValues (collect (fun id => if id = 1 then ![![1, 0, 0, 1], ![0, 1, 0, 0], ![0, 0, 1, 0]]
            else if id = 2 then ![![1, 0, 0, 7], ![0, 1, 0, 0], ![0, 0, 1, 0]]
            else Transform.null)
        ([(1, Transform.getIdentity), (2, ![![1, 0, 0, 5], ![0, 1, 0, 0], ![0, 0, 1, 0]])] : PoseMap ℚ)).groundTruth
      = [![![1, 0, 0, 1], ![0, 1, 0, 0], ![0, 0, 1, 0]],
          ![![1, 0, 0, 7], ![0, 1, 0, 0], ![0, 0, 1, 0]]] := by
  rfl

theorem twoPose_not_identity :
    Transform.isIdentity (![![1, 0, 0, 1], ![0, 1, 0, 0], ![0, 0, 1, 0]] : Transform ℚ) = false := by
  apply Transform.isIdentity_eq_false _ 0 3
  simp [Transform.getIdentity]

theorem twoPose_realign :
    realign (![![1, 0, 0, 1], ![0, 1, 0, 0], ![0, 0, 1, 0]] : Transform ℚ)
        [(1, Transform.getIdentity), (2, ![![1, 0, 0, 5], ![0, 1, 0, 0], ![0, 0, 1, 0]])]
      = [(1, ![![1, 0, 0, 1], ![0, 1, 0, 0], ![0, 0, 1, 0]]),
          (2, ![![1, 0, 0, 6], ![0, 1, 0, 0], ![0, 0, 1, 0]])] := by
  rw [realign_of_not_identity _ _ twoPose_not_identity]
  simp only [List.map_cons, List.map_nil, List.cons.injEq, Prod.mk.injEq, true_and, and_true]
  constructor
  · funext i j
    fin_cases i <;> fin_cases j <;>
      simp [Transform.mul, Transform.getIdentity, Matrix.vecHead, Matrix.vecTail]
  · funext i j
    fin_cases i <;> fin_cases j <;>
      simp [Transform.mul, Matrix.vecHead, Matrix.vecTail]
    norm_num

/-- Counterexample to C14 as stated: the KITTI errors `t_err`, `r_err` are error
statistics computed from the poses as estimated, before the alignment.  In the
two-pose run the alignment transform is the translation by `(1, 0, 0)`, not the
identity, and the realigned poses are the translations by `(1, 0, 0)` and
`(6, 0, 0)`; whatever `calcKittiSequenceErrors` computes, it is called on the
estimated poses, the identity and the translation by `(5, 0, 0)`, which are not
the realigned ones. -/
theorem kitti_errors_before_alignment :
    alignment (fun _ _ => (Transform.null : Transform ℚ))
        [(1, Transform.getIdentity), (2, ![![1, 0, 0, 5], ![0, 1, 0, 0], ![0, 0, 1, 0]])]
        (collect (fun id => if id = 1 then ![![1, 0, 0, 1], ![0, 1, 0, 0], ![0, 0, 1, 0]]
            else if id = 2 then ![![1, 0, 0, 7], ![0, 1, 0, 0], ![0, 0, 1, 0]]
            else Transform.null)
          [(1, Transform.getIdentity), (2, ![![1, 0, 0, 5], ![0, 1, 0, 0], ![0, 0, 1, 0]])])
        = some ![![1, 0, 0, 1], ![0, 1, 0, 0], ![0, 0, 1, 0]]
      ∧ Transform.isIdentity (![![1, 0, 0, 1], ![0, 1, 0, 0], ![0, 0, 1, 0]] : Transform ℚ) = false
      ∧ (∀ (calcKittiSequenceErrors : List (Transform ℚ) → List (Transform ℚ) → ℚ × ℚ)
          (getAngle getDistance : Transform ℚ → Transform ℚ → ℚ),
          (groundTruthComparison
            (fun id => if id = 1 then ![![1, 0, 0, 1], ![0, 1, 0, 0], ![0, 0, 1, 0]]
            else if id = 2 then ![![1, 0, 0, 7], ![0, 1, 0, 0], ![0, 0, 1, 0]]
            else Transform.null)
            calcKittiSequenceErrors (fun _ _ => (Transform.null : Transform ℚ))
            getAngle getDistance
            [(1, Transform.getIdentity), (2, ![![1, 0, 0, 5], ![0, 1, 0, 0], ![0, 0, 1, 0]])]).map
              (fun out => out.1)
          = some (calcKittiSequenceErrors
              [![![1, 0, 0, 1], ![0, 1, 0, 0], ![0, 0, 1, 0]],
                ![![1, 0, 0, 7], ![0, 1, 0, 0], ![0, 0, 1, 0]]]
              [Transform.getIdentity, ![![1, 0, 0, 5], ![0, 1, 0, 0], ![0, 0, 1, 0]]]))
      ∧ uValues (realign (![![1, 0, 0, 1], ![0, 1, 0, 0], ![0, 0, 1, 0]] : Transform ℚ)
          [(1, Transform.getIdentity), (2, ![![1, 0, 0, 5], ![0, 1, 0, 0], ![0, 0, 1, 0]])])
        = [![![1, 0, 0, 1], ![0, 1, 0, 0], ![0, 0, 1, 0]],
            ![![1, 0, 0, 6], ![0, 1, 0, 0], ![0, 0, 1, 0]]]
      ∧ ([Transform.getIdentity, ![![1, 0, 0, 5], ![0, 1, 0, 0], ![0, 0, 1, 0]]]
          : List (Transform ℚ))
        ≠ [![![1, 0, 0, 1], ![0, 1, 0, 0], ![0, 0, 1, 0]],
            ![![1, 0, 0, 6], ![0, 1, 0, 0], ![0, 0, 1, 0]]] := by
  refine ⟨twoPose_alignment, twoPose_not_identity, ?_, ?_, ?_⟩
  · intro calcKittiSequenceErrors getAngle getDistance
    rw [groundTruthComparison_of_alignment _ _ _ _ _ _ _ twoPose_alignment,
      twoPose_groundTruth]
    rfl
  · rw [twoPose_realign]
    rfl
  · intro h
    have h03 := congrFun (congrFun (List.cons.inj h).1 0) 3
    simp [Transform.getIdentity] at h03

/-- Witness of C14, amended, over `ℚ`: the two-pose run, where the alignment
transform is the translation by `(1, 0, 0)`, not the identity, and both poses
are replaced. -/
theorem groundTruthComparison_realign_witness :
    alignment (fun _ _ => (Transform.null : Transform ℚ))
        [(1, Transform.getIdentity), (2, ![![1, 0, 0, 5], ![0, 1, 0, 0], ![0, 0, 1, 0]])]
        (collect (fun id => if id = 1 then ![![1, 0, 0, 1], ![0, 1, 0, 0], ![0, 0, 1, 0]]
            else if id = 2 then ![![1, 0, 0, 7], ![0, 1, 0, 0], ![0, 0, 1, 0]]
            else Transform.null)
          [(1, Transform.getIdentity), (2, ![![1, 0, 0, 5], ![0, 1, 0, 0], ![0, 0, 1, 0]])])
        = some ![![1, 0, 0, 1], ![0, 1, 0, 0], ![0, 0, 1, 0]]
      ∧ Transform.isIdentity (![![1, 0, 0, 1], ![0, 1, 0, 0], ![0, 0, 1, 0]] : Transform ℚ) = false
      ∧ groundTruthComparison
          (fun id => if id = 1 then ![![1, 0, 0, 1], ![0, 1, 0, 0], ![0, 0, 1, 0]]
            else if id = 2 then ![![1, 0, 0, 7], ![0, 1, 0, 0], ![0, 0, 1, 0]]
            else Transform.null)
          (fun _ _ => (0, 0)) (fun _ _ => (Transform.null : Transform ℚ))
          (fun _ _ => 0) (fun pose gt => |pose.x - gt.x|)
          [(1, Transform.getIdentity), (2, ![![1, 0, 0, 5], ![0, 1, 0, 0], ![0, 0, 1, 0]])]
        = some ((0, 0),
            realign ![![1, 0, 0, 1], ![0, 1, 0, 0], ![0, 0, 1, 0]]
              [(1, Transform.getIdentity), (2, ![![1, 0, 0, 5], ![0, 1, 0, 0], ![0, 0, 1, 0]])],
            errors (fun _ _ => 0) (fun pose gt => |pose.x - gt.x|)
              (collect (fun id => if id = 1 then ![![1, 0, 0, 1], ![0, 1, 0, 0], ![0, 0, 1, 0]]
            else if id = 2 then ![![1, 0, 0, 7], ![0, 1, 0, 0], ![0, 0, 1, 0]]
            else Transform.null)
                [(1, Transform.getIdentity), (2, ![![1, 0, 0, 5], ![0, 1, 0, 0], ![0, 0, 1, 0]])]).groundTruth
              (realign ![![1, 0, 0, 1], ![0, 1, 0, 0], ![0, 0, 1, 0]]
                [(1, Transform.getIdentity), (2, ![![1, 0, 0, 5], ![0, 1, 0, 0], ![0, 0, 1, 0]])]),
            report (errors (fun _ _ => 0) (fun pose gt => |pose.x - gt.x|)
              (collect (fun id => if id = 1 then ![![1, 0, 0, 1], ![0, 1, 0, 0], ![0, 0, 1, 0]]
            else if id = 2 then ![![1, 0, 0, 7], ![0, 1, 0, 0], ![0, 0, 1, 0]]
            else Transform.null)
                [(1, Transform.getIdentity), (2, ![![1, 0, 0, 5], ![0, 1, 0, 0], ![0, 0, 1, 0]])]).groundTruth
              (realign ![![1, 0, 0, 1], ![0, 1, 0, 0], ![0, 0, 1, 0]]
                [(1, Transform.getIdentity), (2, ![![1, 0, 0, 5], ![0, 1, 0, 0], ![0, 0, 1, 0]])])))
      ∧ realign (![![1, 0, 0, 1], ![0, 1, 0, 0], ![0, 0, 1, 0]] : Transform ℚ)
          [(1, Transform.getIdentity), (2, ![![1, 0, 0, 5], ![0, 1, 0, 0], ![0, 0, 1, 0]])]
        = List.map (fun iter => (iter.1, Transform.mul ![![1, 0, 0, 1], ![0, 1, 0, 0], ![0, 0, 1, 0]] iter.2))
            [(1, Transform.getIdentity), (2, ![![1, 0, 0, 5], ![0, 1, 0, 0], ![0, 0, 1, 0]])] :=
  ⟨twoPose_alignment, twoPose_not_identity,
    (groundTruthComparison_realign
      (fun id => if id = 1 then ![![1, 0, 0, 1], ![0, 1, 0, 0], ![0, 0, 1, 0]]
            else if id = 2 then ![![1, 0, 0, 7], ![0, 1, 0, 0], ![0, 0, 1, 0]]
            else Transform.null)
      (fun _ _ => (0, 0)) (fun _ _ => (Transform.null : Transform ℚ))
      (fun _ _ => 0) (fun pose gt => |pose.x - gt.x|)
      [(1, Transform.getIdentity), (2, ![![1, 0, 0, 5], ![0, 1, 0, 0], ![0, 0, 1, 0]])]
      _ twoPose_alignment).1,
    (groundTruthComparison_realign
      (fun id => if id = 1 then ![![1, 0, 0, 1], ![0, 1, 0, 0], ![0, 0, 1, 0]]
            else if id = 2 then ![![1, 0, 0, 7], ![0, 1, 0, 0], ![0, 0, 1, 0]]
            else Transform.null)
      (fun _ _ => (0, 0)) (fun _ _ => (Transform.null : Transform ℚ))
      (fun _ _ => 0) (fun pose gt => |pose.x - gt.x|)
      [(1, Transform.getIdentity), (2, ![![1, 0, 0, 5], ![0, 1, 0, 0], ![0, 0, 1, 0]])]
      _ twoPose_alignment).2.1 twoPose_not_identity⟩

end reportedMedian

/-! ## Absolute orientation -/

section centredSets

open Matrix

theorem zip_map_self_left {P : Type} (f : P → P) (l : List P) :
    List.zip (l.map f) l = l.map (fun p => (f p, p)) := by
  induction l with
  | nil => rfl
  | cons a rest ih => simp [ih]

theorem zip_self {P : Type} (l : List P) : List.zip l l = l.map (fun p => (p, p)) := by
  induction l with
  | nil => rfl
  | cons a rest ih => simp [ih]

variable (R : Matrix (Fin 3) (Fin 3) ℝ) (t : Fin 3 → ℝ) (f : PointXYZ ℝ → PointXYZ ℝ)

/-- The coordinate sums of the image of a point set under an affine map. -/
theorem sum_map_affine
    (hf : ∀ p k, (f p).toVec k
      = R k 0 * p.toVec 0 + R k 1 * p.toVec 1 + R k 2 * p.toVec 2 + t k)
    (cloud : PointCloud (PointXYZ ℝ)) (k : Fin 3) :
    (cloud.map (fun p => (f p).toVec k)).sum
      = R k 0 * (cloud.map (fun p => p.toVec 0)).sum
        + R k 1 * (cloud.map (fun p => p.toVec 1)).sum
        + R k 2 * (cloud.map (fun p => p.toVec 2)).sum
        + (cloud.length : ℝ) * t k := by
  induction cloud with
  | nil => simp
  | cons a rest ih =>
    simp only [List.map_cons, List.sum_cons, List.length_cons, ih, hf a k]
    push_cast
    ring

/-- The centroid of the image of a non-empty point set under an affine map is
the image of the centroid. -/
theorem centroid_map_affine
    (hf : ∀ p k, (f p).toVec k
      = R k 0 * p.toVec 0 + R k 1 * p.toVec 1 + R k 2 * p.toVec 2 + t k)
    (cloud : PointCloud (PointXYZ ℝ)) (hne : cloud ≠ []) (k : Fin 3) :
    centroid (cloud.map f) k
      = R k 0 * centroid cloud 0 + R k 1 * centroid cloud 1 + R k 2 * centroid cloud 2
        + t k := by
  have hn : (cloud.length : ℝ) ≠ 0 := by
    have : cloud.length ≠ 0 := fun h => hne (List.eq_nil_of_length_eq_zero h)
    exact_mod_cast this
  simp only [centroid, List.map_map, Function.comp_def, List.length_map]
  rw [sum_map_affine R t f hf cloud k]
  field_simp
  ring

theorem sum_centred_affine
    (hf : ∀ p k, (f p).toVec k
      = R k 0 * p.toVec 0 + R k 1 * p.toVec 1 + R k 2 * p.toVec 2 + t k)
    (c d : Fin 3 → ℝ) (j k : Fin 3)
    (hd : d j = R j 0 * c 0 + R j 1 * c 1 + R j 2 * c 2 + t j)
    (cloud : PointCloud (PointXYZ ℝ)) :
    (cloud.map (fun p => ((f p).toVec j - d j) * (p.toVec k - c k))).sum
      = R j 0 * (cloud.map (fun p => (p.toVec 0 - c 0) * (p.toVec k - c k))).sum
        + R j 1 * (cloud.map (fun p => (p.toVec 1 - c 1) * (p.toVec k - c k))).sum
        + R j 2 * (cloud.map (fun p => (p.toVec 2 - c 2) * (p.toVec k - c k))).sum := by
  induction cloud with
  | nil => simp
  | cons a rest ih =>
    rw [List.map_cons, List.sum_cons, ih]
    simp only [List.map_cons, List.sum_cons]
    rw [hf a j, hd]
    ring

theorem crossCovariance_self_apply (cloud : PointCloud (PointXYZ ℝ)) (j k : Fin 3) :
    crossCovariance cloud cloud j k
      = (cloud.map (fun p =>
          (p.toVec j - centroid cloud j) * (p.toVec k - centroid cloud k))).sum := by
  simp only [crossCovariance, zip_self, List.map_map, Function.comp_def]

/-- The cross-covariance of the image under an affine map with the set itself
is the linear part times the covariance of the set. -/
theorem crossCovariance_map_affine
    (hf : ∀ p k, (f p).toVec k
      = R k 0 * p.toVec 0 + R k 1 * p.toVec 1 + R k 2 * p.toVec 2 + t k)
    (cloud : PointCloud (PointXYZ ℝ)) (hne : cloud ≠ []) :
    crossCovariance (cloud.map f) cloud = R * crossCovariance cloud cloud := by
  funext j k
  rw [Matrix.mul_apply, Fin.sum_univ_three]
  simp only [crossCovariance_self_apply]
  simp only [crossCovariance, zip_map_self_left, List.map_map, Function.comp_def]
  exact sum_centred_affine R t f hf (centroid cloud) (centroid (cloud.map f)) j k
    (centroid_map_affine R t f hf cloud hne j) cloud

/-- The covariance of a point set is positive semidefinite. -/
theorem crossCovariance_self_posSemidef (cloud : PointCloud (PointXYZ ℝ)) :
    (crossCovariance cloud cloud).PosSemidef := by
  constructor
  · funext j k
    simp only [Matrix.conjTranspose_apply, crossCovariance_self_apply, star_trivial]
    congr 1
    apply List.map_congr_left
    intro p _
    ring
  · intro x
    have key : ∀ (l : PointCloud (PointXYZ ℝ)) (c : Fin 3 → ℝ),
        star x ⬝ᵥ ((fun j k => (l.map (fun p =>
            (p.toVec j - c j) * (p.toVec k - c k))).sum : Matrix (Fin 3) (Fin 3) ℝ) *ᵥ x)
          = (l.map (fun p => (x 0 * (p.toVec 0 - c 0) + x 1 * (p.toVec 1 - c 1)
              + x 2 * (p.toVec 2 - c 2)) ^ 2)).sum := by
      intro l c
      induction l with
      | nil => simp [Matrix.dotProduct, Matrix.mulVec, Fin.sum_univ_three]
      | cons a rest ih =>
        simp only [Matrix.dotProduct, Matrix.mulVec, Fin.sum_univ_three, star_trivial,
          List.map_cons, List.sum_cons] at ih ⊢
        rw [← ih]
        ring
    have hM : crossCovariance cloud cloud
        = (fun j k => (cloud.map (fun p =>
            (p.toVec j - centroid cloud j) * (p.toVec k - centroid cloud k))).sum) := by
      funext j k
      exact crossCovariance_self_apply cloud j k
    rw [hM, key]
    apply List.sum_nonneg
    intro y hy
    obtain ⟨p, _, rfl⟩ := List.mem_map.mp hy
    exact sq_nonneg _

end centredSets

section kabsch

open Matrix

/-- For an orthogonal `Q` and a diagonal `σ` whose entries `0` and `1` are
non-zero, `Q * diagonal σ = diagonal σ` forces `Q = diagonal (1, 1, det Q)`. -/
theorem orthogonal_fixing_diagonal (Q : Matrix (Fin 3) (Fin 3) ℝ) (σ : Fin 3 → ℝ)
    (hQ : Q * Qᵀ = 1) (hfix : Q * diagonal σ = diagonal σ)
    (h0 : σ 0 ≠ 0) (h1 : σ 1 ≠ 0) :
    Q = diagonal ![1, 1, Q.det] := by
  have e := fun i j => congrFun (congrFun hfix i) j
  have c00 : Q 0 0 = 1 := by
    have := e 0 0
    simp only [Matrix.mul_apply, Fin.sum_univ_three, Matrix.diagonal_apply] at this
    simp at this
    have h2 : Q 0 0 * σ 0 = 1 * σ 0 := by rw [one_mul]; exact this
    exact mul_right_cancel₀ h0 h2
  have c10 : Q 1 0 = 0 := by
    have := e 1 0
    simp [Matrix.mul_apply, Fin.sum_univ_three, Matrix.diagonal] at this
    rcases this with h | h
    · exact h
    · exact absurd h h0
  have c20 : Q 2 0 = 0 := by
    have := e 2 0
    simp [Matrix.mul_apply, Fin.sum_univ_three, Matrix.diagonal] at this
    rcases this with h | h
    · exact h
    · exact absurd h h0
  have c01 : Q 0 1 = 0 := by
    have := e 0 1
    simp [Matrix.mul_apply, Fin.sum_univ_three, Matrix.diagonal] at this
    rcases this with h | h
    · exact h
    · exact absurd h h1
  have c11 : Q 1 1 = 1 := by
    have := e 1 1
    simp only [Matrix.mul_apply, Fin.sum_univ_three, Matrix.diagonal_apply] at this
    simp at this
    have h2 : Q 1 1 * σ 1 = 1 * σ 1 := by rw [one_mul]; exact this
    exact mul_right_cancel₀ h1 h2
  have c21 : Q 2 1 = 0 := by
    have := e 2 1
    simp [Matrix.mul_apply, Fin.sum_univ_three, Matrix.diagonal] at this
    rcases this with h | h
    · exact h
    · exact absurd h h1
  have r := fun i j => congrFun (congrFun hQ i) j
  have r00 := r 0 0
  have r11 := r 1 1
  simp [Matrix.mul_apply, Fin.sum_univ_three, c00, c01, c10, c11] at r00 r11
  have hdet : Q.det = Q 2 2 := by
    rw [Matrix.det_fin_three]
    simp [c00, c01, c10, c11, c20, c21, r00, r11]
  funext i j
  fin_cases i <;> fin_cases j <;>
    simp [Matrix.diagonal, c00, c01, c10, c11, c20, c21, r00, r11, hdet]

/-- The rotation of the absolute-orientation method: when the cross-covariance
is `R0 * M` with `R0` a rotation and `M` positive semidefinite of rank at least
two, every singular value decomposition `U * diagonal σ * Vᵀ` of it gives
`V * diag(1, 1, det (V * Uᵀ)) * Uᵀ = R0ᵀ`. -/
theorem svd_rotation_eq (R0 M U V : Matrix (Fin 3) (Fin 3) ℝ) (σ : Fin 3 → ℝ)
    (hR0 : R0ᵀ * R0 = 1) (hdet : R0.det = 1) (hM : M.PosSemidef) (hrank : 2 ≤ M.rank)
    (hU : Uᵀ * U = 1) (hV : Vᵀ * V = 1) (hσ : ∀ i, 0 ≤ σ i)
    (h21 : σ 2 ≤ σ 1) (h10 : σ 1 ≤ σ 0)
    (hH : R0 * M = U * diagonal σ * Vᵀ) :
    V * diagonal ![1, 1, (V * Uᵀ).det] * Uᵀ = R0ᵀ := by
  have hR0' : R0 * R0ᵀ = 1 := Matrix.mul_eq_one_comm.mp hR0
  have hU' : U * Uᵀ = 1 := Matrix.mul_eq_one_comm.mp hU
  have hV' : V * Vᵀ = 1 := Matrix.mul_eq_one_comm.mp hV
  -- `N = Vᵀ M V = Q Σ`
  have hM' : M = R0ᵀ * (U * diagonal σ * Vᵀ) := by
    rw [← hH, ← Matrix.mul_assoc, hR0, Matrix.one_mul]
  have hN : Vᵀ * M * V = (Vᵀ * R0ᵀ * U) * diagonal σ := by
    rw [hM']
    simp only [Matrix.mul_assoc]
    rw [hV, Matrix.mul_one]
  have hQ : (Vᵀ * R0ᵀ * U) * (Vᵀ * R0ᵀ * U)ᵀ = 1 := by
    simp only [Matrix.transpose_mul, Matrix.transpose_transpose]
    calc Vᵀ * R0ᵀ * U * (Uᵀ * (R0 * V))
        = Vᵀ * (R0ᵀ * ((U * Uᵀ) * (R0 * V))) := by simp only [Matrix.mul_assoc]
      _ = Vᵀ * ((R0ᵀ * R0) * V) := by rw [hU', Matrix.one_mul, Matrix.mul_assoc]
      _ = 1 := by rw [hR0, Matrix.one_mul, hV]
  have hQ' : (Vᵀ * R0ᵀ * U)ᵀ * (Vᵀ * R0ᵀ * U) = 1 := Matrix.mul_eq_one_comm.mp hQ
  have hNpsd : (Vᵀ * M * V).PosSemidef := by
    have := hM.conjTranspose_mul_mul_same V
    rwa [Matrix.conjTranspose_eq_transpose_of_trivial] at this
  have hSpsd : (diagonal σ).PosSemidef := Matrix.PosSemidef.diagonal (fun i => hσ i)
  have hsym : (Vᵀ * M * V)ᵀ = Vᵀ * M * V := by
    have := hNpsd.1
    rwa [Matrix.IsHermitian, Matrix.conjTranspose_eq_transpose_of_trivial] at this
  have hsq : (Vᵀ * M * V) ^ 2 = (diagonal σ) ^ 2 := by
    rw [pow_two, pow_two]
    nth_rewrite 1 [← hsym]
    rw [hN, Matrix.transpose_mul, Matrix.diagonal_transpose]
    calc diagonal σ * (Vᵀ * R0ᵀ * U)ᵀ * (Vᵀ * R0ᵀ * U * diagonal σ)
        = diagonal σ * (((Vᵀ * R0ᵀ * U)ᵀ * (Vᵀ * R0ᵀ * U)) * diagonal σ) := by
          simp only [Matrix.mul_assoc]
      _ = diagonal σ * diagonal σ := by rw [hQ', Matrix.one_mul]
  have hNS : Vᵀ * M * V = diagonal σ := hNpsd.eq_of_sq_eq_sq hSpsd hsq
  have hfix : (Vᵀ * R0ᵀ * U) * diagonal σ = diagonal σ := by rw [← hN, hNS]
  -- the rank of `M` is the number of non-zero singular values
  have hMV : M = V * diagonal σ * Vᵀ := by
    rw [← hNS]
    calc M = (V * Vᵀ) * M * (V * Vᵀ) := by rw [hV', Matrix.one_mul, Matrix.mul_one]
      _ = V * (Vᵀ * M * V) * Vᵀ := by simp only [Matrix.mul_assoc]
  have h1 : σ 1 ≠ 0 := by
    intro h1
    have h2 : σ 2 = 0 := le_antisymm (h1 ▸ h21) (hσ 2)
    have hle : M.rank ≤ (diagonal σ).rank := by
      rw [hMV]
      exact (Matrix.rank_mul_le_left _ _).trans (Matrix.rank_mul_le_right _ _)
    rw [Matrix.rank_diagonal] at hle
    have hcard : Fintype.card { i : Fin 3 // σ i ≠ 0 } ≤ 1 := by
      rw [Fintype.card_subtype]
      have hsub : (Finset.univ.filter (fun i : Fin 3 => σ i ≠ 0)) ⊆ {0} := by
        intro i hi
        simp only [Finset.mem_filter, Finset.mem_univ, true_and] at hi
        fin_cases i
        · simp
        · exact absurd h1 hi
        · exact absurd h2 hi
      exact (Finset.card_le_card hsub).trans (by simp)
    omega
  have h0 : σ 0 ≠ 0 := by
    have : 0 < σ 1 := lt_of_le_of_ne (hσ 1) (Ne.symm h1)
    exact ne_of_gt (lt_of_lt_of_le this h10)
  have hQd := orthogonal_fixing_diagonal (Vᵀ * R0ᵀ * U) σ hQ hfix h0 h1
  have hdetQ : (Vᵀ * R0ᵀ * U).det = (V * Uᵀ).det := by
    simp only [Matrix.det_mul, Matrix.det_transpose, hdet]
    ring
  rw [hdetQ] at hQd
  rw [← hQd]
  calc V * (Vᵀ * R0ᵀ * U) * Uᵀ = (V * Vᵀ) * R0ᵀ * (U * Uᵀ) := by simp only [Matrix.mul_assoc]
    _ = R0ᵀ := by rw [hV', hU', Matrix.one_mul, Matrix.mul_one]

end kabsch

section svdAlignment

open KittiDataset Matrix

theorem Transform.ext_rotation_translation {α : Type} (T T' : Transform α)
    (hr : T.rotation = T'.rotation) (ht : T.translation = T'.translation) : T = T' := by
  funext i j
  have h0 := congrFun (congrFun hr i) 0
  have h1 := congrFun (congrFun hr i) 1
  have h2 := congrFun (congrFun hr i) 2
  have h3 := congrFun ht i
  simp only [Transform.rotation, Transform.translation] at h0 h1 h2 h3
  fin_cases j
  · exact h0
  · exact h1
  · exact h2
  · exact h3

theorem Transform.inverse_rotation {α : Type} [CommRing α] (S : Transform α) :
    S.inverse.rotation = S.rotation.transpose := by
  funext i j
  fin_cases i <;> fin_cases j <;>
    simp [Transform.inverse, Transform.rotation, castSucc_two_fin]

theorem Transform.inverse_translation {α : Type} [CommRing α] (S : Transform α) (i : Fin 3) :
    S.inverse.translation i
      = -(S 0 i.castSucc * S 0 3 + S 1 i.castSucc * S 1 3 + S 2 i.castSucc * S 2 3) := by
  fin_cases i <;> simp [Transform.inverse, Transform.translation, castSucc_two_fin]

variable {α : Type} [CommRing α] [DecidableEq α]

/-- The point clouds and the counter after the first loop: one pair of points
per pose with ground truth, in pose order. -/
theorem collect_foldl_clouds (getNodeInfo : Int → Transform α) (poses : PoseMap α)
    (st : Correspondences α) :
    (poses.foldl (collect_body getNodeInfo) st).cloud1
        = st.cloud1 ++ (poses.filter (fun it => !(getNodeInfo it.1).isNull)).map
            (fun it => ⟨(getNodeInfo it.1).x, (getNodeInfo it.1).y, (getNodeInfo it.1).z⟩)
      ∧ (poses.foldl (collect_body getNodeInfo) st).cloud2
        = st.cloud2 ++ (poses.filter (fun it => !(getNodeInfo it.1).isNull)).map
            (fun it => ⟨it.2.x, it.2.y, it.2.z⟩)
      ∧ (poses.foldl (collect_body getNodeInfo) st).oi
        = st.oi + (poses.filter (fun it => !(getNodeInfo it.1).isNull)).length := by
  induction poses generalizing st with
  | nil => simp
  | cons a rest ih =>
    simp only [List.foldl_cons]
    obtain ⟨h1, h2, h3⟩ := ih (collect_body getNodeInfo st a)
    rw [h1, h2, h3]
    by_cases ha : (!(getNodeInfo a.1).isNull) = true
    · have hf : (List.filter (fun it : Int × Transform α => !(getNodeInfo it.1).isNull)
          (a :: rest))
          = a :: List.filter (fun it : Int × Transform α => !(getNodeInfo it.1).isNull)
              rest := by
        simp only [List.filter_cons, ha, if_true]
      rw [hf]
      simp only [collect_body, if_pos ha, List.map_cons, List.length_cons, List.append_assoc,
        List.singleton_append]
      refine ⟨trivial, trivial, ?_⟩
      omega
    · have ha' : (!(getNodeInfo a.1).isNull) = false := by simpa using ha
      have hf : (List.filter (fun it : Int × Transform α => !(getNodeInfo it.1).isNull)
          (a :: rest))
          = List.filter (fun it : Int × Transform α => !(getNodeInfo it.1).isNull) rest := by
        simp only [List.filter_cons, ha', Bool.false_eq_true, if_false]
      rw [hf, collect_body_of_null getNodeInfo st a ha']
      exact ⟨rfl, rfl, rfl⟩

theorem collect_clouds (getNodeInfo : Int → Transform α) (poses : PoseMap α) :
    (collect getNodeInfo poses).cloud1
        = (poses.filter (fun it => !(getNodeInfo it.1).isNull)).map
            (fun it => ⟨(getNodeInfo it.1).x, (getNodeInfo it.1).y, (getNodeInfo it.1).z⟩)
      ∧ (collect getNodeInfo poses).cloud2
        = (poses.filter (fun it => !(getNodeInfo it.1).isNull)).map
            (fun it => ⟨it.2.x, it.2.y, it.2.z⟩)
      ∧ (collect getNodeInfo poses).oi
        = (poses.filter (fun it => !(getNodeInfo it.1).isNull)).length := by
  obtain ⟨h1, h2, h3⟩ := collect_foldl_clouds getNodeInfo poses
    { groundTruth := [], cloud1 := [], cloud2 := [], oi := 0, idFirst := 0 }
  unfold collect
  rw [h1, h2, h3]
  simp

/-- With more than five correspondences the alignment transform is the result of
`transformFromXYZCorrespondencesSVD(cloud2, cloud1)`: estimated positions first,
ground-truth positions second. -/
theorem alignment_of_many (getNodeInfo : Int → Transform α)
    (transformFromXYZCorrespondencesSVD :
      PointCloud (PointXYZ α) → PointCloud (PointXYZ α) → Transform α)
    (poses : PoseMap α)
    (hn : 5 < (poses.filter (fun it => !(getNodeInfo it.1).isNull)).length) :
    alignment transformFromXYZCorrespondencesSVD poses (collect getNodeInfo poses)
      = some (transformFromXYZCorrespondencesSVD (collect getNodeInfo poses).cloud2
          (collect getNodeInfo poses).cloud1) := by
  unfold alignment
  rw [if_pos (by rw [(collect_clouds getNodeInfo poses).2.2]; exact hn)]

end svdAlignment

section svdAlignmentMain

open KittiDataset Matrix

/-- The position of `S * A` is the image under `S` of the position of `A`. -/
theorem Transform.mul_position (S A : Transform ℝ) :
    (⟨(S.mul A).x, (S.mul A).y, (S.mul A).z⟩ : PointXYZ ℝ)
      = ⟨S 0 0 * A.x + S 0 1 * A.y + S 0 2 * A.z + S 0 3,
         S 1 0 * A.x + S 1 1 * A.y + S 1 2 * A.z + S 1 3,
         S 2 0 * A.x + S 2 1 * A.y + S 2 2 * A.z + S 2 3⟩ := by
  simp [Transform.x, Transform.y, Transform.z, Transform.mul_apply]

/-- The result of the spec-modelled SVD alignment of `S`-images onto their
originals is the rigid inverse of `S`, when the originals are not collinear. -/
theorem isSVDAlignment_of_rigid_image (S T : Transform ℝ) (cloud : PointCloud (PointXYZ ℝ))
    (hS : S.IsRigid) (hne : cloud ≠ [])
    (hrank : 2 ≤ (crossCovariance cloud cloud).rank)
    (hT : IsSVDAlignment
      (cloud.map (fun p => (⟨S 0 0 * p.x + S 0 1 * p.y + S 0 2 * p.z + S 0 3,
         S 1 0 * p.x + S 1 1 * p.y + S 1 2 * p.z + S 1 3,
         S 2 0 * p.x + S 2 1 * p.y + S 2 2 * p.z + S 2 3⟩ : PointXYZ ℝ))) cloud T) :
    T = S.inverse := by
  have hf : ∀ (p : PointXYZ ℝ) (k : Fin 3),
      (⟨S 0 0 * p.x + S 0 1 * p.y + S 0 2 * p.z + S 0 3,
         S 1 0 * p.x + S 1 1 * p.y + S 1 2 * p.z + S 1 3,
         S 2 0 * p.x + S 2 1 * p.y + S 2 2 * p.z + S 2 3⟩ : PointXYZ ℝ).toVec k
        = S.rotation k 0 * p.toVec 0 + S.rotation k 1 * p.toVec 1
          + S.rotation k 2 * p.toVec 2 + S.translation k := by
    intro p k
    fin_cases k <;>
      simp [PointXYZ.toVec, Transform.rotation, Transform.translation, castSucc_two_fin]
  obtain ⟨U, V, σ, hU, hV, hσ, h21, h10, hH, hrot, htr⟩ := hT
  rw [crossCovariance_map_affine S.rotation S.translation _ hf cloud hne] at hH
  have hR : T.rotation = S.rotation.transpose := by
    rw [hrot]
    exact svd_rotation_eq S.rotation (crossCovariance cloud cloud) U V σ hS.1 hS.2
      (crossCovariance_self_posSemidef cloud) hrank hU hV hσ h21 h10 hH
  obtain ⟨⟨e00, e01, e02⟩, ⟨e10, e11, e12⟩, ⟨e20, e21, e22⟩⟩ :=
    rotation_orthonormal_entries S hS.1
  apply Transform.ext_rotation_translation
  · rw [hR, Transform.inverse_rotation]
  · funext i
    rw [htr, hR, Transform.inverse_translation]
    simp only [Pi.sub_apply, Matrix.mulVec, Matrix.dotProduct, Fin.sum_univ_three,
      Matrix.transpose_apply]
    rw [centroid_map_affine S.rotation S.translation _ hf cloud hne 0,
      centroid_map_affine S.rotation S.translation _ hf cloud hne 1,
      centroid_map_affine S.rotation S.translation _ hf cloud hne 2]
    simp only [Transform.rotation, Transform.translation]
    fin_cases i
    · simp [castSucc_two_fin]
      linear_combination (-(centroid cloud 0)) * e00 - centroid cloud 1 * e01
        - centroid cloud 2 * e02
    · simp [castSucc_two_fin]
      linear_combination (-(centroid cloud 0)) * e10 - centroid cloud 1 * e11
        - centroid cloud 2 * e12
    · simp [castSucc_two_fin]
      linear_combination (-(centroid cloud 0)) * e20 - centroid cloud 1 * e21
        - centroid cloud 2 * e22

/-- C13, amended: for every reference trajectory `A` with `n > 5`
correspondences whose positions are not collinear (their covariance has rank at
least two) and estimate `B = S * A` for a rigid transform `S`, no noise, the
`n > 5` branch calls `transformFromXYZCorrespondencesSVD` on the estimated and
the ground-truth positions, and when that call returns a transform with
rotation `V * diag(1, 1, det (V * Uᵀ)) * Uᵀ` from a singular value decomposition
of the cross-covariance of the centred sets (translation from the centroids),
the alignment transform is exactly the inverse of `S`, the rigid transform that
maps the estimate back onto the reference. -/
theorem alignment_svd (getNodeInfo : Int → Transform ℝ)
    (transformFromXYZCorrespondencesSVD :
      PointCloud (PointXYZ ℝ) → PointCloud (PointXYZ ℝ) → Transform ℝ)
    (poses : PoseMap ℝ) (S : Transform ℝ)
    (hn : 5 < (poses.filter (fun it => !(getNodeInfo it.1).isNull)).length)
    (hS : S.IsRigid)
    (hB : ∀ it ∈ poses, (!(getNodeInfo it.1).isNull) = true →
      it.2 = S.mul (getNodeInfo it.1))
    (hrank : 2 ≤ (crossCovariance (collect getNodeInfo poses).cloud1
      (collect getNodeInfo poses).cloud1).rank)
    (hsvd : IsSVDAlignment (collect getNodeInfo poses).cloud2
      (collect getNodeInfo poses).cloud1
      (transformFromXYZCorrespondencesSVD (collect getNodeInfo poses).cloud2
        (collect getNodeInfo poses).cloud1)) :
    alignment transformFromXYZCorrespondencesSVD poses (collect getNodeInfo poses)
      = some S.inverse := by
  rw [alignment_of_many getNodeInfo transformFromXYZCorrespondencesSVD poses hn]
  obtain ⟨h1, h2, _⟩ := collect_clouds getNodeInfo poses
  have h21 : (collect getNodeInfo poses).cloud2
      = (collect getNodeInfo poses).cloud1.map
          (fun p => (⟨S 0 0 * p.x + S 0 1 * p.y + S 0 2 * p.z + S 0 3,
            S 1 0 * p.x + S 1 1 * p.y + S 1 2 * p.z + S 1 3,
            S 2 0 * p.x + S 2 1 * p.y + S 2 2 * p.z + S 2 3⟩ : PointXYZ ℝ)) := by
    rw [h1, h2, List.map_map]
    apply List.map_congr_left
    intro it hit
    have hit' := List.mem_filter.mp hit
    rw [hB it hit'.1 hit'.2]
    exact Transform.mul_position S (getNodeInfo it.1)
  have hne : (collect getNodeInfo poses).cloud1 ≠ [] := by
    intro h
    rw [h1] at h
    have := congrArg List.length h
    simp only [List.length_map, List.length_nil] at this
    omega
  rw [h21] at hsvd
  congr 1
  rw [h21]
  exact isSVDAlignment_of_rigid_image S _ _ hS hne hrank hsvd

end svdAlignmentMain

/-! ## The sample run -/

section sampleRun

open KittiDataset Matrix

theorem Transform.isNull_eq_false {α : Type} [Zero α] [DecidableEq α] (t : Transform α)
    (i : Fin 3) (j : Fin 4) (h : t i j ≠ 0) : t.isNull = false := by
  unfold Transform.isNull
  rw [decide_eq_false_iff_not]
  intro hall
  apply h
  have := hall i j
  rw [this]
  fin_cases i <;> fin_cases j <;> rfl

theorem sampleGroundTruth_not_null :
    ∀ it ∈ (sampleEstimate : PoseMap ℝ),
      (!(Transform.isNull (sampleGroundTruth it.1 : Transform ℝ))) = true := by
  intro it hit
  simp only [sampleEstimate, List.mem_cons, List.mem_singleton, List.not_mem_nil, or_false] at hit
  rcases hit with h | h | h | h | h | h <;> subst h <;>
    simp [sampleGroundTruth, Transform.isNull_eq_false _ 0 0]

theorem sample_filter :
    (sampleEstimate : PoseMap ℝ).filter
        (fun it => !(Transform.isNull (sampleGroundTruth it.1 : Transform ℝ)))
      = sampleEstimate := by
  rw [List.filter_eq_self]
  exact sampleGroundTruth_not_null

theorem sample_cloud1 :
    (collect sampleGroundTruth (sampleEstimate : PoseMap ℝ)).cloud1
      = [⟨3, 0, 0⟩, ⟨-3, 0, 0⟩, ⟨0, 2, 0⟩, ⟨0, -2, 0⟩, ⟨0, 0, 1⟩, ⟨0, 0, -1⟩] := by
  rw [(collect_clouds _ _).1, sample_filter]
  simp [sampleEstimate, sampleGroundTruth, Transform.x, Transform.y, Transform.z,
    Matrix.vecHead, Matrix.vecTail]

theorem sample_covariance :
    crossCovariance
        ([⟨3, 0, 0⟩, ⟨-3, 0, 0⟩, ⟨0, 2, 0⟩, ⟨0, -2, 0⟩, ⟨0, 0, 1⟩, ⟨0, 0, -1⟩] :
          PointCloud (PointXYZ ℝ))
        [⟨3, 0, 0⟩, ⟨-3, 0, 0⟩, ⟨0, 2, 0⟩, ⟨0, -2, 0⟩, ⟨0, 0, 1⟩, ⟨0, 0, -1⟩]
      = Matrix.diagonal ![18, 8, 2] := by
  funext j k
  rw [crossCovariance_self_apply]
  fin_cases j <;> fin_cases k <;> simp [centroid, PointXYZ.toVec] <;> norm_num

theorem sample_estimate_eq :
    ∀ it ∈ (sampleEstimate : PoseMap ℝ),
      (!(Transform.isNull (sampleGroundTruth it.1 : Transform ℝ))) = true →
        it.2 = Transform.mul sampleTransform (sampleGroundTruth it.1) := by
  intro it hit _
  simp only [sampleEstimate, List.mem_cons, List.mem_singleton, List.not_mem_nil, or_false] at hit
  rcases hit with h | h | h | h | h | h <;> subst h <;> rfl

theorem sampleTransform_isRigid : Transform.IsRigid (sampleTransform : Transform ℝ) := by
  constructor
  · funext i j
    fin_cases i <;> fin_cases j <;>
      simp [sampleTransform, Matrix.mul_apply, Fin.sum_univ_three, Transform.rotation,
        castSucc_two_fin, Matrix.vecHead, Matrix.vecTail]
  · simp [sampleTransform, Matrix.det_fin_three, Transform.rotation, castSucc_two_fin]

theorem sample_cloud2 :
    (collect sampleGroundTruth (sampleEstimate : PoseMap ℝ)).cloud2
      = (collect sampleGroundTruth (sampleEstimate : PoseMap ℝ)).cloud1.map
          (fun p => (⟨(sampleTransform : Transform ℝ) 0 0 * p.x + sampleTransform 0 1 * p.y
              + sampleTransform 0 2 * p.z + sampleTransform 0 3,
            sampleTransform 1 0 * p.x + sampleTransform 1 1 * p.y
              + sampleTransform 1 2 * p.z + sampleTransform 1 3,
            sampleTransform 2 0 * p.x + sampleTransform 2 1 * p.y
              + sampleTransform 2 2 * p.z + sampleTransform 2 3⟩ : PointXYZ ℝ)) := by
  obtain ⟨h1, h2, _⟩ := collect_clouds sampleGroundTruth (sampleEstimate : PoseMap ℝ)
  rw [h1, h2, List.map_map]
  apply List.map_congr_left
  intro it hit
  have hit' := List.mem_filter.mp hit
  rw [sample_estimate_eq it hit'.1 hit'.2]
  exact Transform.mul_position sampleTransform (sampleGroundTruth it.1)

theorem sample_rank :
    2 ≤ (crossCovariance (collect sampleGroundTruth (sampleEstimate : PoseMap ℝ)).cloud1
      (collect sampleGroundTruth (sampleEstimate : PoseMap ℝ)).cloud1).rank := by
  rw [sample_cloud1, sample_covariance, Matrix.rank_diagonal, Fintype.card_subtype]
  have : (Finset.univ.filter (fun i : Fin 3 => (![18, 8, 2] : Fin 3 → ℝ) i ≠ 0))
      = Finset.univ := by
    apply Finset.filter_true_of_mem
    intro i _
    fin_cases i <;> simp
  rw [this]
  simp

/-- In the sample run the inverse of `sampleTransform` is a result of the
SVD alignment of the estimated onto the ground-truth positions, with
`U` the quarter turn, `V` the identity and singular values `18, 8, 2`. -/
theorem sample_isSVDAlignment :
    IsSVDAlignment (collect sampleGroundTruth (sampleEstimate : PoseMap ℝ)).cloud2
      (collect sampleGroundTruth (sampleEstimate : PoseMap ℝ)).cloud1
      (Transform.inverse sampleTransform) := by
  have hf : ∀ (p : PointXYZ ℝ) (k : Fin 3),
      (⟨(sampleTransform : Transform ℝ) 0 0 * p.x + sampleTransform 0 1 * p.y
              + sampleTransform 0 2 * p.z + sampleTransform 0 3,
            sampleTransform 1 0 * p.x + sampleTransform 1 1 * p.y
              + sampleTransform 1 2 * p.z + sampleTransform 1 3,
            sampleTransform 2 0 * p.x + sampleTransform 2 1 * p.y
              + sampleTransform 2 2 * p.z + sampleTransform 2 3⟩ : PointXYZ ℝ).toVec k
        = (sampleTransform : Transform ℝ).rotation k 0 * p.toVec 0
          + (sampleTransform : Transform ℝ).rotation k 1 * p.toVec 1
          + (sampleTransform : Transform ℝ).rotation k 2 * p.toVec 2
          + (sampleTransform : Transform ℝ).translation k := by
    intro p k
    fin_cases k <;>
      simp [PointXYZ.toVec, Transform.rotation, Transform.translation, castSucc_two_fin]
  have hne : (collect sampleGroundTruth (sampleEstimate : PoseMap ℝ)).cloud1 ≠ [] := by
    rw [sample_cloud1]; simp
  have hrigid := sampleTransform_isRigid
  refine ⟨(sampleTransform : Transform ℝ).rotation, 1, ![18, 8, 2], hrigid.1, by simp, ?_,
    by norm_num, by norm_num, ?_, ?_, ?_⟩
  · intro i; fin_cases i <;> norm_num
  · rw [sample_cloud2, crossCovariance_map_affine _ _ _ hf _ hne, sample_cloud1,
      sample_covariance]
    simp
  · rw [Transform.inverse_rotation]
    simp only [Matrix.one_mul, Matrix.det_transpose, hrigid.2]
    have : (Matrix.diagonal ![1, 1, (1 : ℝ)]) = 1 := by
      funext i j
      fin_cases i <;> fin_cases j <;> simp [Matrix.diagonal]
    rw [this, Matrix.one_mul]
  · funext i
    rw [sample_cloud2, Transform.inverse_rotation, Transform.inverse_translation]
    simp only [Pi.sub_apply, Matrix.mulVec, Matrix.dotProduct, Fin.sum_univ_three,
      Matrix.transpose_apply]
    rw [centroid_map_affine _ _ _ hf _ hne 0, centroid_map_affine _ _ _ hf _ hne 1,
      centroid_map_affine _ _ _ hf _ hne 2]
    obtain ⟨⟨e00, e01, e02⟩, ⟨e10, e11, e12⟩, ⟨e20, e21, e22⟩⟩ :=
      rotation_orthonormal_entries (sampleTransform : Transform ℝ) hrigid.1
    simp only [Transform.rotation, Transform.translation]
    generalize centroid (collect sampleGroundTruth (sampleEstimate : PoseMap ℝ)).cloud1 = c
    fin_cases i
    · simp [castSucc_two_fin]
      linear_combination (c 0) * e00 + c 1 * e01 + c 2 * e02
    · simp [castSucc_two_fin]
      linear_combination (c 0) * e10 + c 1 * e11 + c 2 * e12
    · simp [castSucc_two_fin]
      linear_combination (c 0) * e20 + c 1 * e21 + c 2 * e22

/-- Counterexample to C13 as stated: in the sample run (`n = 6`, `B = S * A` with
`S` the rigid `sampleTransform`, reference positions spanning space) the
transform `S⁻¹` is a result of the SVD alignment of the estimated onto the
ground-truth positions, the harness takes it as alignment transform, and it is
not `S`: the aligner maps the estimate back onto the reference. -/
theorem alignment_svd_not_S :
    5 < ((sampleEstimate : PoseMap ℝ).filter
        (fun it => !(Transform.isNull (sampleGroundTruth it.1 : Transform ℝ)))).length
      ∧ Transform.IsRigid (sampleTransform : Transform ℝ)
      ∧ (∀ it ∈ (sampleEstimate : PoseMap ℝ),
          (!(Transform.isNull (sampleGroundTruth it.1 : Transform ℝ))) = true →
            it.2 = Transform.mul sampleTransform (sampleGroundTruth it.1))
      ∧ IsSVDAlignment (collect sampleGroundTruth (sampleEstimate : PoseMap ℝ)).cloud2
          (collect sampleGroundTruth (sampleEstimate : PoseMap ℝ)).cloud1
          (Transform.inverse sampleTransform)
      ∧ alignment (fun _ _ => Transform.inverse sampleTransform)
          (sampleEstimate : PoseMap ℝ) (collect sampleGroundTruth sampleEstimate)
        = some (Transform.inverse sampleTransform)
      ∧ Transform.inverse (sampleTransform : Transform ℝ) ≠ sampleTransform := by
  have hn : 5 < ((sampleEstimate : PoseMap ℝ).filter
      (fun it => !(Transform.isNull (sampleGroundTruth it.1 : Transform ℝ)))).length := by
    rw [sample_filter]
    simp [sampleEstimate]
  refine ⟨hn, sampleTransform_isRigid, sample_estimate_eq, sample_isSVDAlignment, ?_, ?_⟩
  · rw [alignment_of_many sampleGroundTruth _ _ hn]
  · intro h
    have h01 := congrFun (congrFun h 0) 1
    simp [Transform.inverse, sampleTransform] at h01
    norm_num at h01

/-- Witness of C13, amended: the sample run, with `transformFromXYZCorrespondencesSVD`
returning the result of the SVD alignment. -/
theorem alignment_svd_witness :
    5 < ((sampleEstimate : PoseMap ℝ).filter
        (fun it => !(Transform.isNull (sampleGroundTruth it.1 : Transform ℝ)))).length
      ∧ 2 ≤ (crossCovariance (collect sampleGroundTruth (sampleEstimate : PoseMap ℝ)).cloud1
          (collect sampleGroundTruth (sampleEstimate : PoseMap ℝ)).cloud1).rank
      ∧ alignment (fun _ _ => Transform.inverse sampleTransform)
          (sampleEstimate : PoseMap ℝ) (collect sampleGroundTruth sampleEstimate)
        = some (Transform.inverse sampleTransform) := by
  have hn : 5 < ((sampleEstimate : PoseMap ℝ).filter
      (fun it => !(Transform.isNull (sampleGroundTruth it.1 : Transform ℝ)))).length := by
    rw [sample_filter]
    simp [sampleEstimate]
  exact ⟨hn, sample_rank,
    alignment_svd sampleGroundTruth (fun _ _ => Transform.inverse sampleTransform)
      sampleEstimate sampleTransform hn sampleTransform_isRigid sample_estimate_eq
      sample_rank sample_isSVDAlignment⟩

/-- Collinear reference positions do not determine the rotation: for six
reference positions all at `(1, 0, 0)` and their images `(0, 1, 0)` under the
quarter turn about `z`, the cross-covariance is zero and the translation by
`(1, -1, 0)` with the identity rotation is a result of the SVD alignment; it is
neither the quarter turn nor its inverse. -/
theorem isSVDAlignment_stationary :
    IsSVDAlignment
        ([⟨0, 1, 0⟩, ⟨0, 1, 0⟩, ⟨0, 1, 0⟩, ⟨0, 1, 0⟩, ⟨0, 1, 0⟩, ⟨0, 1, 0⟩] :
          PointCloud (PointXYZ ℝ))
        [⟨1, 0, 0⟩, ⟨1, 0, 0⟩, ⟨1, 0, 0⟩, ⟨1, 0, 0⟩, ⟨1, 0, 0⟩, ⟨1, 0, 0⟩]
        ![![1, 0, 0, 1], ![0, 1, 0, -1], ![0, 0, 1, 0]]
      ∧ (![![1, 0, 0, 1], ![0, 1, 0, -1], ![0, 0, 1, 0]] : Transform ℝ)
          ≠ ![![0, -1, 0, 0], ![1, 0, 0, 0], ![0, 0, 1, 0]]
      ∧ (![![1, 0, 0, 1], ![0, 1, 0, -1], ![0, 0, 1, 0]] : Transform ℝ)
          ≠ Transform.inverse ![![0, -1, 0, 0], ![1, 0, 0, 0], ![0, 0, 1, 0]] := by
  refine ⟨⟨1, 1, 0, by simp, by simp, fun _ => le_refl _, le_refl _, le_refl _, ?_, ?_, ?_⟩,
    ?_, ?_⟩
  · funext j k
    fin_cases j <;> fin_cases k
    all_goals simp [crossCovariance, centroid, PointXYZ.toVec]
    all_goals norm_num
  · funext i j
    fin_cases i <;> fin_cases j <;>
      simp [Transform.rotation, castSucc_two_fin, Matrix.diagonal, Matrix.vecHead,
        Matrix.vecTail]
  · funext i
    fin_cases i <;>
      simp [Transform.rotation, Transform.translation, castSucc_two_fin, centroid,
        PointXYZ.toVec, Matrix.mulVec, Matrix.dotProduct, Fin.sum_univ_three,
        Matrix.vecHead, Matrix.vecTail] <;> norm_num
  · intro h
    have h00 := congrFun (congrFun h 0) 0
    simp at h00
  · intro h
    have h00 := congrFun (congrFun h 0) 0
    simp [Transform.inverse] at h00

end sampleRun

end rtabmap
